import Mathlib

/-!
Verification of the simulation and placement core of the Egg-spitting-Farm
game (source: `gametest.py`).  Continuous quantities (distances, speeds,
progress fractions, seconds) are embedded as rationals, Python ints as `ℤ`
or `ℕ`, Python sets of gadget ids as `Finset ℕ`, and the string-valued
state fields (`round_result`, `portal_state`) as small inductive types
whose constructors mirror the string constants used by the source.
Wall-clock reads (`pygame.time.get_ticks()`) are passed in as an explicit
`now : ℤ` millisecond parameter, and random draws are passed as explicit
seed parameters, matching the spec's view of the clock and randomness as
environment-supplied inputs.
-/

namespace EggFarm

/-- Python `int(x)` for a rational `x`: truncation toward zero. -/
def pyInt (q : ℚ) : ℤ := if q < 0 then -⌊-q⌋ else ⌊q⌋

/-- Python `random.randint(lo, hi)` modelled by an explicit seed choosing a
value in the inclusive range `[lo, hi]`. -/
def randintSeed (lo hi : ℤ) (seed : ℕ) : ℤ :=
lo + Int.ofNat (seed % (max 1 (hi - lo + 1)).toNat)

def SPAWN_INTERVAL : ℚ := 3/10
def ROUND_TIME : ℤ := 60
def PIPE_COST_SCHEDULE : List ℤ :=
[10, 20, 25, 40, 60, 180, 250, 400, 600, 800, 1000, 1500, 2000, 3000, 5000]
def PIPE_SPEED : ℚ := 1000
def BALL_RADIUS : ℚ := 12
def BALL_ACCEL : ℚ := 180
def BALL_MAX_SPEED : ℚ := 480
def BLOCK_SLOW_FACTOR : ℚ := 35/100
def BLOCK_BONUS : ℤ := 2
def BLOCK_DURATION : ℚ := 5
def BLOCK_COOLDOWN_DURATION : ℚ := 30
def BLOCK_COST_SCHEDULE : List ℤ :=
[16, 25, 30, 38, 40, 50, 100, 150, 200, 250, 300, 400, 500, 800, 1000, 1500]
def SPEED_BOOST_FACTOR : ℚ := 2
def SPECIAL_EGG_VALUE : ℤ := 10
def COIN_RAIN_RATE : ℤ := 5
def RAPID_FIRE_INTERVAL : ℚ := 1/2
def TURBO_PIPE_COST_SCHEDULE : List ℤ := [25, 45, 80, 100, 250, 800, 1500, 5000]
def TURBO_PIPE_LENGTH : ℚ := 5/100
def TURBO_PIPE_MULTIPLIER : ℚ := 101/100
def BOUNCER_COST : ℤ := 10
def BOUNCER_TRIGGER_REMOVALS : ℤ := 3
def STORM_ITEM_COST : ℤ := 80
def STORM_MIN_EGGS : ℤ := 80
def STORM_MAX_EGGS : ℤ := 500
def STORM_WINDOW_DURATION : ℤ := 5000
def STORM_WINDOW_TARGET : ℤ := 20
def STORM_ANIMATION_DURATION : ℤ := 900
def STORM_LIFETIME_MS : ℤ := 10000
def REMOVAL_BONUS : ℤ := 3
def PORTAL_COST : ℤ := 10
def PORTAL_ACTIVE_DURATION : ℚ := 10
def PORTAL_RADIUS : ℚ := 26
def PORTAL_COOLDOWN_DURATION : ℚ := 40
def PORTAL_COOLDOWN_REDUCTION : ℚ := 10
def PORTAL_INFUSION_RANGE : ℚ := PORTAL_RADIUS + 14
def ADVANCED_UNLOCK_LEVEL : ℕ := 2
def PASSIVE_UNLOCK_LEVEL : ℕ := 1
def TRACK_POINT_TOLERANCE : ℚ := 1/10000

/-- Value of `round_result` (`None` is represented by `Option.none`). -/
inductive RoundResult where
| success
| fail
deriving DecidableEq

/-- Value of `portal_state`. -/
inductive PortalState where
| inactive
| active
| cooldown
deriving DecidableEq

/-- Passive skill keys. -/
inductive Skill where
| super_egg
| coin_rain
| rapid_fire
deriving DecidableEq

/-- Collectible power-up kinds. -/
inductive PowerupKind where
| speed_boost
| storm
| bouncepad
deriving DecidableEq

/-- Mirror of `pygame.Rect` restricted to the fields the core reads
(`top`, `bottom`, `centerx`, and the edges used by `collidepoint`). -/
structure Rect where
  left : ℚ
  top : ℚ
  width : ℚ
  height : ℚ
deriving DecidableEq

def Rect.bottom (r : Rect) : ℚ := r.top + r.height
def Rect.right (r : Rect) : ℚ := r.left + r.width
def Rect.centerx (r : Rect) : ℚ := r.left + r.width / 2

structure Ball where
  color_index : ℕ := 0
  distance : ℚ := 0
  last_distance : ℚ := 0
  speed : ℚ := 0
  in_pipe : Bool := false
  pipe_y : ℚ := 0
  pipe_x : ℚ := 0
  pipe_id : Option ℕ := none
  used_pipes : Finset ℕ := ∅
  block_hits : Finset ℕ := ∅
  turbo_hits : Finset ℕ := ∅
  bonus_score : ℤ := 0
  score_value : ℤ := 1
  coin_value : ℤ := 1
  is_special : Bool := false
deriving DecidableEq

structure PipeItem where
  id : ℕ := 0
  cost : ℤ := 0
  rect : Option Rect := none
  entry_progress : ℚ := 0
  exit_progress : ℚ := 0
  entry_y : ℚ := 0
  exit_y : ℚ := 0
  x : ℚ := 0
deriving DecidableEq

structure BlockItem where
  id : ℕ := 0
  cost : ℤ := 0
  progress : ℚ := 0
  pos : ℚ × ℚ := (0, 0)
  radius : ℚ := 18
  spawn_ms : ℤ := 0
  is_active : Bool := false
  active_duration : ℚ := BLOCK_DURATION
  active_until_ms : ℤ := 0
  cooldown_duration : ℚ := BLOCK_COOLDOWN_DURATION
  cooldown_start_ms : ℤ := 0
  cooldown_end_ms : ℤ := 0
  upgrade_count : ℕ := 0
deriving DecidableEq

structure TurboPipeItem where
  id : ℕ := 0
  cost : ℤ := 0
  start_progress : ℚ := 0
  end_progress : ℚ := 0
  length_progress : ℚ := TURBO_PIPE_LENGTH
  positions : List (ℚ × ℚ) := []
deriving DecidableEq

structure BouncerItem where
  id : ℕ := 0
  cost : ℤ := BOUNCER_COST
  center : ℚ × ℚ := (0, 0)
  progress : ℚ := 0
  radius : ℚ := 38
  removals_remaining : ℤ := BOUNCER_TRIGGER_REMOVALS
  ready_to_drop : Bool := false
deriving DecidableEq

structure StormItem where
  id : ℕ := 0
  cost : ℤ := STORM_ITEM_COST
  center : ℚ × ℚ := (0, 0)
  progress : ℚ := 0
  radius : ℚ := 42
  window_count : ℤ := 0
  counted_eggs : ℤ := 0
  animation_until : ℤ := 0
  last_reward : ℤ := 0
  settle_at : ℤ := 0
  expires_at : ℤ := 0
deriving DecidableEq

structure PortalItem where
  id : ℕ := 0
  cost : ℤ := PORTAL_COST
  center : ℚ × ℚ := (0, 0)
  progress : ℚ := 0
  radius : ℚ := PORTAL_RADIUS
deriving DecidableEq

structure TrackPowerup where
  id : ℕ := 0
  kind : PowerupKind := PowerupKind.speed_boost
  progress : ℚ := 0
  pos : ℚ × ℚ := (0, 0)
  radius : ℚ := 20
deriving DecidableEq

/-- The mutable world state of `SpiralGame`, restricted to the fields the
simulation and placement core reads or writes (render-only fields such as
button rectangles and tooltip data are omitted; `coin_popups` are cosmetic
timed text and are likewise not modelled). -/
structure World where
  track_total : ℚ := 1000
  balls : List Ball := []
  pipes : List PipeItem := []
  blocks : List BlockItem := []
  turbo_pipes : List TurboPipeItem := []
  bouncers : List BouncerItem := []
  storm_emitters : List StormItem := []
  portals : List PortalItem := []
  track_powerups : List TrackPowerup := []
  score : ℤ := 0
  coins : ℤ := 0
  spawn_timer : ℚ := 0
  round_start_ms : Option ℤ := none
  round_active : Bool := true
  round_result : Option RoundResult := none
  current_level : ℕ := 1
  max_level : ℕ := 4
  pipe_counter : ℕ := 0
  pipe_purchases : ℕ := 0
  block_counter : ℕ := 0
  block_purchases : ℕ := 0
  turbo_counter : ℕ := 0
  turbo_purchases : ℕ := 0
  bouncer_counter : ℕ := 0
  bouncer_purchases : ℕ := 0
  storm_counter : ℕ := 0
  portal_counter : ℕ := 0
  portal_purchases : ℕ := 0
  placing_pipe : Option PipeItem := none
  placing_block : Option BlockItem := none
  placing_turbo_pipe : Option TurboPipeItem := none
  placing_bouncer : Option BouncerItem := none
  placing_storm : Option StormItem := none
  placing_portal : Option PortalItem := none
  portal_state : PortalState := PortalState.inactive
  portal_active_until : ℤ := 0
  portal_cooldown_until : ℤ := 0
  speed_boost_active_until : ℤ := 0
  speed_boost_cooldown_until : ℤ := 0
  speed_boost_unlocked : Bool := false
  active_skills : Finset Skill := ∅
  skill_selection_required : Bool := false
  skill_coin_timer : ℚ := 0
  rapid_fire_timer : ℚ := 0
  speed_boost_charges : ℤ := 0
  storm_charges : ℤ := 0
  bouncepad_charges : ℤ := 0
  spawned_ball_count : ℕ := 0
  powerup_counter : ℕ := 0
deriving DecidableEq

/-- `LEVEL_CONFIG[level]["target"]` with the dict-lookup default 0. -/
def level_target_of (level : ℕ) : ℤ :=
match level with
| 1 => 180
| 2 => 300
| 3 => 3000
| 4 => 20000
| _ => 0

def level_target (w : World) : ℤ := level_target_of w.current_level

/-- `LEVEL_CONFIG[level]["blocks"]` with the dict-lookup default `False`. -/
def blocks_enabled (w : World) : Bool := decide (2 ≤ w.current_level ∧ w.current_level ≤ 4)

def turbo_enabled (w : World) : Bool := decide (3 ≤ w.current_level)

def bouncer_enabled (w : World) : Bool := decide (3 ≤ w.current_level)

def storm_enabled (w : World) : Bool := decide (3 ≤ w.current_level)

def portal_enabled (w : World) : Bool := decide (3 ≤ w.current_level)

def speed_boost_active (w : World) (now : ℤ) : Bool :=
w.speed_boost_unlocked && decide (now < w.speed_boost_active_until)

def speed_boost_multiplier (w : World) (now : ℤ) : ℚ :=
if speed_boost_active w now then SPEED_BOOST_FACTOR else 1

def progress_to_distance (w : World) (progress : ℚ) : ℚ :=
(max 0 (min progress 1)) * w.track_total

def ball_progress (w : World) (b : Ball) : ℚ :=
if w.track_total ≤ 0 then 0 else min (b.distance / w.track_total) 1

def get_pipe_by_id (w : World) (pipe_id : Option ℕ) : Option PipeItem :=
match pipe_id with
| none => none
| some i => w.pipes.find? (fun p => p.id = i)

/-- Scan of the `for pipe in self.pipes` loop at the end of `apply_pipe`:
the first unused pipe with a rect whose entry distance is crossed
(half-open test) captures the ball into pipe transit. -/
def pipe_entry_scan (w : World) (b : Ball) : List PipeItem → Bool × Ball
| [] => (false, b)
| pipe :: rest =>
  if pipe.id ∈ b.used_pipes then pipe_entry_scan w b rest
  else
    match pipe.rect with
    | none => pipe_entry_scan w b rest
    | some rect =>
      let entry_distance := progress_to_distance w pipe.entry_progress
      if b.last_distance < entry_distance ∧ entry_distance ≤ b.distance then
        let entry_y := if pipe.entry_y = 0 then rect.top + 10 else pipe.entry_y
        let pipe_x := if pipe.x = 0 then rect.centerx else pipe.x
        (true,
          { b with
            in_pipe := true
            pipe_id := some pipe.id
            pipe_y := entry_y
            pipe_x := pipe_x
            speed := 0
            distance := max b.distance entry_distance
            last_distance := max b.distance entry_distance })
      else pipe_entry_scan w b rest

/-- `SpiralGame.apply_pipe`: returns the Python method's boolean result
together with the updated ball.  The Python truthiness tests
`pipe.exit_y or ...` / `pipe.x or ...` are rendered as comparisons
with `0`. -/
def apply_pipe (w : World) (now : ℤ) (dt : ℚ) (b : Ball) : Bool × Ball :=
if w.pipes = [] then (false, b)
else
  let multiplier := speed_boost_multiplier w now
  if b.in_pipe then
    match get_pipe_by_id w b.pipe_id with
    | none => (false, { b with in_pipe := false, pipe_id := none })
    | some pipe =>
      match pipe.rect with
      | none => (false, { b with in_pipe := false, pipe_id := none })
      | some rect =>
        let exit_y := if pipe.exit_y = 0 then rect.bottom - 10 else pipe.exit_y
        let new_pipe_y := b.pipe_y + PIPE_SPEED * multiplier * dt
        if exit_y ≤ new_pipe_y then
          let exit_distance := progress_to_distance w pipe.exit_progress
          (true,
            { b with
              pipe_y := exit_y
              in_pipe := false
              pipe_id := none
              used_pipes := insert pipe.id b.used_pipes
              distance := max b.distance exit_distance
              last_distance := max b.distance exit_distance })
        else (true, { b with pipe_y := new_pipe_y })
  else pipe_entry_scan w b w.pipes

/-- Body of the `for block in self.blocks` loop of `apply_block_effects`:
an active, not-yet-hit block whose distance is crossed slows the ball
and adds the fixed bonus. -/
def block_step (w : World) (b : Ball) (block : BlockItem) : Ball :=
if block.is_active = false then b
else if block.id ∈ b.block_hits then b
else
  let block_distance := progress_to_distance w block.progress
  if b.last_distance < block_distance ∧ block_distance ≤ b.distance then
    { b with
      speed := max (b.speed * BLOCK_SLOW_FACTOR) 0
      block_hits := insert block.id b.block_hits
      bonus_score := b.bonus_score + BLOCK_BONUS }
  else b

/-- `SpiralGame.apply_block_effects`. -/
def apply_block_effects (w : World) (b : Ball) : Ball :=
w.blocks.foldl (block_step w) b

/-- Body of the `for turbo in self.turbo_pipes` loop of
`apply_turbo_effects`: threads the running `zone_multiplier` together
with the mutated ball; the cosmetic `show_turbo_bonus_popup` call is not
modelled (it only appends a timed text popup). -/
def turbo_step (w : World) (acc : ℚ × Ball) (turbo : TurboPipeItem) : ℚ × Ball :=
let zm := acc.1
let b := acc.2
let start_distance := progress_to_distance w turbo.start_progress
let end_distance := progress_to_distance w turbo.end_progress
if b.last_distance < end_distance ∧ start_distance < b.distance then
  let zm2 := max zm TURBO_PIPE_MULTIPLIER
  if turbo.id ∉ b.turbo_hits ∧ b.last_distance ≤ start_distance then
    (zm2,
      { b with
        score_value := b.score_value * 2
        speed := min (b.speed * TURBO_PIPE_MULTIPLIER)
          (BALL_MAX_SPEED * TURBO_PIPE_MULTIPLIER)
        turbo_hits := insert turbo.id b.turbo_hits })
  else (zm2, b)
else (zm, b)

/-- `SpiralGame.apply_turbo_effects`. -/
def apply_turbo_effects (w : World) (dt : ℚ) (speed_multiplier : ℚ) (b : Ball) : Ball :=
let scanned := w.turbo_pipes.foldl (turbo_step w) (1, b)
let zone_multiplier := scanned.1
let b2 := scanned.2
if 1 < zone_multiplier then
  { b2 with distance := b2.distance + b2.speed * speed_multiplier * dt * (zone_multiplier - 1) }
else { b2 with speed := min b2.speed BALL_MAX_SPEED }

/-- Entry/exit assignment of `apply_portal_effects`: Python sorts the first
two portals by screen y descending with a stable sort, so the entry portal
is the second one exactly when its y is strictly larger. -/
def portal_entry_exit (p0 p1 : PortalItem) : PortalItem × PortalItem :=
if p0.center.2 < p1.center.2 then (p1, p0) else (p0, p1)

/-- `SpiralGame.apply_portal_effects`. -/
def apply_portal_effects (w : World) (b : Ball) : Ball :=
match w.portals with
| p0 :: p1 :: _ =>
  if w.portal_state ≠ PortalState.active then b
  else if b.in_pipe then b
  else
    let pair := portal_entry_exit p0 p1
    let entry_distance := progress_to_distance w pair.1.progress
    let exit_distance := progress_to_distance w pair.2.progress
    if ¬(b.last_distance < entry_distance ∧ entry_distance ≤ b.distance) then b
    else
      let teleport_distance := exit_distance + BALL_RADIUS * (3/2)
      { b with
        distance := teleport_distance
        last_distance := teleport_distance
        speed := max b.speed (BALL_ACCEL * (1/10)) }
| _ => b

/-- Decision of whether `apply_portal_effects` teleports the ball: the
branch conditions of the source, packaged as a boolean. -/
def portal_teleport_fires (w : World) (b : Ball) : Bool :=
match w.portals with
| p0 :: p1 :: _ =>
  if w.portal_state ≠ PortalState.active then false
  else if b.in_pipe then false
  else
    let pair := portal_entry_exit p0 p1
    let entry_distance := progress_to_distance w pair.1.progress
    decide (b.last_distance < entry_distance ∧ entry_distance ≤ b.distance)
| _ => false

/-- `SpiralGame.collect_powerup`. -/
def collect_powerup (w : World) (powerup : TrackPowerup) : World :=
let w :=
  match powerup.kind with
  | PowerupKind.speed_boost => { w with speed_boost_charges := w.speed_boost_charges + 1 }
  | PowerupKind.storm => { w with storm_charges := w.storm_charges + 1 }
  | PowerupKind.bouncepad => { w with bouncepad_charges := w.bouncepad_charges + 1 }
{ w with track_powerups := w.track_powerups.filter (fun item => item.id ≠ powerup.id) }

/-- `SpiralGame.check_powerup_collision`. -/
def check_powerup_collision (w : World) (b : Ball) : World :=
if w.track_powerups = [] ∨ b.in_pipe then w
else
  let collected := w.track_powerups.filter
    (fun powerup =>
      let target_distance := progress_to_distance w powerup.progress
      decide (b.last_distance < target_distance ∧ target_distance ≤ b.distance))
  collected.foldl collect_powerup w

/-- `SpiralGame.process_storm_pass` (the falsy test `not storm.settle_at`
is a comparison with 0). -/
def process_storm_pass (w : World) (now : ℤ) (b : Ball) : World :=
if w.storm_emitters = [] then w
else
  { w with
    storm_emitters :=
      w.storm_emitters.map
        (fun storm =>
          if storm.settle_at = 0 then storm
          else if storm.settle_at < now then storm
          else
            let impact_distance := progress_to_distance w storm.progress
            if b.last_distance < impact_distance ∧ impact_distance ≤ b.distance then
              { storm with window_count := storm.window_count + 1 }
            else storm) }

/-- `SpiralGame.next_pipe_cost`. -/
def next_pipe_cost (w : World) : ℤ :=
PIPE_COST_SCHEDULE.getD (min w.pipe_purchases (PIPE_COST_SCHEDULE.length - 1)) 0

/-- `SpiralGame.next_block_cost`. -/
def next_block_cost (w : World) : ℤ :=
BLOCK_COST_SCHEDULE.getD (min w.block_purchases (BLOCK_COST_SCHEDULE.length - 1)) 0

/-- `SpiralGame.next_turbo_cost`. -/
def next_turbo_cost (w : World) : ℤ :=
TURBO_PIPE_COST_SCHEDULE.getD (min w.turbo_purchases (TURBO_PIPE_COST_SCHEDULE.length - 1)) 0

/-- `SpiralGame.next_portal_cost` (a doubling formula, not a schedule). -/
def next_portal_cost (w : World) : ℤ := PORTAL_COST * 2 ^ w.portal_purchases

/-- `SpiralGame.next_storm_cost`. -/
def next_storm_cost (_w : World) : ℤ := STORM_ITEM_COST

/-- Guard shared by the purchase handlers: some placement is pending.
The Python handlers test the six `placing_*` fields in slightly different
orders (own kind first); since every guard is a pure no-op `return`, the
resulting state only depends on the disjunction. -/
def any_placing (w : World) : Bool :=
w.placing_pipe.isSome || w.placing_block.isSome || w.placing_turbo_pipe.isSome ||
  w.placing_bouncer.isSome || w.placing_storm.isSome || w.placing_portal.isSome

/-- `SpiralGame.try_purchase_pipe`. -/
def try_purchase_pipe (w : World) : World :=
if any_placing w then w
else
  let cost := next_pipe_cost w
  if w.coins < cost then w
  else
    { w with
      coins := w.coins - cost
      pipe_counter := w.pipe_counter + 1
      pipe_purchases := w.pipe_purchases + 1
      placing_pipe := some { id := w.pipe_counter + 1, cost := cost } }

/-- `SpiralGame.try_purchase_block`. -/
def try_purchase_block (w : World) : World :=
if blocks_enabled w = false then w
else if any_placing w then w
else
  let cost := next_block_cost w
  if w.coins < cost then w
  else
    { w with
      coins := w.coins - cost
      block_counter := w.block_counter + 1
      block_purchases := w.block_purchases + 1
      placing_block := some { id := w.block_counter + 1, cost := cost } }

/-- `SpiralGame.try_purchase_turbo_pipe`. -/
def try_purchase_turbo_pipe (w : World) : World :=
if turbo_enabled w = false then w
else if any_placing w then w
else
  let cost := next_turbo_cost w
  if w.coins < cost then w
  else
    { w with
      coins := w.coins - cost
      turbo_counter := w.turbo_counter + 1
      turbo_purchases := w.turbo_purchases + 1
      placing_turbo_pipe := some { id := w.turbo_counter + 1, cost := cost } }

/-- `SpiralGame.try_purchase_portal`. -/
def try_purchase_portal (w : World) : World :=
if portal_enabled w = false then w
else if any_placing w then w
else if 2 ≤ w.portals.length ∧ w.portal_state ≠ PortalState.cooldown then w
else
  let cost := next_portal_cost w
  if w.coins < cost then w
  else
    { w with
      coins := w.coins - cost
      portal_counter := w.portal_counter + 1
      portal_purchases := w.portal_purchases + 1
      placing_portal := some { id := w.portal_counter + 1, cost := cost } }

/-- `SpiralGame.try_purchase_storm` (spends a storm charge, not coins). -/
def try_purchase_storm (w : World) : World :=
if storm_enabled w = false then w
else if any_placing w then w
else if w.storm_charges ≤ 0 then w
else
  { w with
    storm_counter := w.storm_counter + 1
    storm_charges := max 0 (w.storm_charges - 1)
    placing_storm := some { id := w.storm_counter + 1, cost := next_storm_cost w } }

/-- `SpiralGame.try_activate_bouncepad` (spends a bounce-pad charge). -/
def try_activate_bouncepad (w : World) : World :=
if bouncer_enabled w = false then w
else if any_placing w then w
else if w.bouncepad_charges ≤ 0 then w
else
  { w with
    bouncepad_charges := max 0 (w.bouncepad_charges - 1)
    bouncer_counter := w.bouncer_counter + 1
    bouncer_purchases := w.bouncer_purchases + 1
    placing_bouncer := some { id := w.bouncer_counter + 1, cost := 0 } }

/-- Result of advancing one ball for one tick inside `update_balls`:
the updated ball, the world (power-up and storm bookkeeping), whether an
`apply_pipe` call returned `True` (the loop's `continue`, skipping the
completion check), and whether the portal teleport branch fired. -/
structure TickResult where
  ball : Ball
  world : World
  handled : Bool
  portal_fired : Bool
deriving DecidableEq

/-- Body of the `for ball in self.balls` loop of `SpiralGame.update_balls`. -/
def tick_ball (w : World) (now : ℤ) (dt : ℚ) (b0 : Ball) : TickResult :=
let multiplier := speed_boost_multiplier w now
let b := { b0 with last_distance := b0.distance }
let first := apply_pipe w now dt b
if first.1 then ⟨first.2, w, true, false⟩
else
  let b := first.2
  let b := { b with speed := min (b.speed + BALL_ACCEL * multiplier * dt) BALL_MAX_SPEED }
  let b := { b with distance := b.distance + b.speed * multiplier * dt }
  if b.in_pipe then
    let second := apply_pipe w now dt b
    ⟨second.2, w, second.1, false⟩
  else
    let b := apply_turbo_effects w dt multiplier b
    let b := apply_block_effects w b
    let fired := portal_teleport_fires w b
    let b := apply_portal_effects w b
    let w2 := check_powerup_collision w b
    let w3 := process_storm_pass w2 now b
    let second := apply_pipe w3 now dt b
    ⟨second.2, w3, second.1, fired⟩

/-- `SpiralGame.check_round_victory`. -/
def check_round_victory (w : World) : World :=
if w.round_result = some RoundResult.success then w
else
  let target := level_target w
  if target ≤ 0 then w
  else if target ≤ w.score then { w with round_result := some RoundResult.success }
  else w

/-- One step of the per-ball scan of `SpiralGame.update_balls`:
advance ball `b` in accumulated world `acc.1`, append the result to the
survivor list, and also to the completed list when it finished the track. -/
def scan_step (now : ℤ) (dt : ℚ) (acc : World × List Ball × List Ball) (b : Ball) :
    World × List Ball × List Ball :=
let r := tick_ball acc.1 now dt b
let completed_here := ¬ r.handled ∧ r.world.track_total ≤ r.ball.distance
(r.world, acc.2.1 ++ [r.ball],
  if completed_here then acc.2.2 ++ [r.ball] else acc.2.2)

/-- Payout for one completed ball in `SpiralGame.update_balls`: add its
score and coin values (each plus the bonus) and re-check victory. -/
def score_step (x : World) (fin : Ball) : World :=
check_round_victory
  { x with
    score := x.score + (fin.score_value + fin.bonus_score)
    coins := x.coins + (fin.coin_value + fin.bonus_score) }

/-- `SpiralGame.update_balls`: advance every ball (threading the world
through the per-ball effects), then pay out and re-check victory for the
completed balls, then drop them from the collection. -/
def update_balls (w0 : World) (now : ℤ) (dt : ℚ) : World :=
let scanned := w0.balls.foldl (scan_step now dt) (w0, [], [])
let completed := scanned.2.2
let w1 := { scanned.1 with balls := scanned.2.1 }
if completed = [] then w1
else
  let w2 :=
    if w1.round_active then completed.foldl score_step w1
    else w1
  { w2 with balls := w2.balls.filter (fun b => b ∉ completed) }

/-- `SpiralGame.remaining_time`: lazily computed countdown whose side
effect flips the round to failed exactly once; returns the updated world
and the reported remaining seconds. -/
def remaining_time (w : World) (now : ℤ) : World × ℤ :=
match w.round_start_ms with
| none => (w, ROUND_TIME)
| some start =>
  let elapsed : ℚ := ((now - start : ℤ) : ℚ) / 1000
  let remaining := max 0 (ROUND_TIME - pyInt elapsed)
  if remaining = 0 ∧ w.round_active then
    let w1 := { w with round_active := false }
    let w2 :=
      if w1.round_result ≠ some RoundResult.success then
        { w1 with round_result := some RoundResult.fail }
      else w1
    (w2, remaining)
  else (w, remaining)

/-- `SpiralGame.spawn_ball`. -/
def spawn_ball (w : World) : World :=
let count := w.spawned_ball_count + 1
let special := Skill.super_egg ∈ w.active_skills ∧ count % 5 = 0
let value : ℤ := if special then SPECIAL_EGG_VALUE else 1
{ w with
  spawned_ball_count := count
  balls := w.balls ++
    [{ color_index := w.balls.length % 4
       score_value := value
       coin_value := value
       is_special := decide special }] }

/-- Number of iterations of a `while timer >= step` loop that subtracts
`step` each time: `⌊timer / step⌋` clamped at zero. -/
def loop_count (timer step : ℚ) : ℕ := (max 0 ⌊timer / step⌋).toNat

/-- Iterated body of the spawn `while` loop in `SpiralGame.update`. -/
def run_spawn_loop : ℕ → World → World
| 0, w => w
| Nat.succ n, w =>
  run_spawn_loop n (spawn_ball { w with spawn_timer := w.spawn_timer - SPAWN_INTERVAL })

/-- `SpiralGame.apply_skill_income`; the `while` loop adding
`COIN_RAIN_RATE` per accumulated second is rendered by its closed form. -/
def apply_skill_income (w : World) (dt : ℚ) : World :=
if Skill.coin_rain ∉ w.active_skills ∨ w.round_active = false then w
else
  let t := w.skill_coin_timer + dt
  let n := loop_count t 1
  { w with skill_coin_timer := t - n, coins := w.coins + COIN_RAIN_RATE * n }

/-- Iterated body of the rapid-fire `while` loop. -/
def run_rapid_fire : ℕ → World → World
| 0, w => w
| Nat.succ n, w =>
  run_rapid_fire n
    (spawn_ball { w with rapid_fire_timer := w.rapid_fire_timer - RAPID_FIRE_INTERVAL })

/-- `SpiralGame.apply_rapid_fire`. -/
def apply_rapid_fire (w : World) (dt : ℚ) : World :=
if Skill.rapid_fire ∉ w.active_skills ∨ w.round_active = false then w
else if w.round_start_ms = none then w
else
  let w := { w with rapid_fire_timer := w.rapid_fire_timer + dt }
  run_rapid_fire (loop_count w.rapid_fire_timer RAPID_FIRE_INTERVAL) w

/-- `SpiralGame.activate_block`. -/
def activate_block (block : BlockItem) (now : ℤ) : BlockItem :=
{ block with
  is_active := true
  spawn_ms := now
  active_until_ms := now + pyInt (block.active_duration * 1000)
  cooldown_start_ms := 0
  cooldown_end_ms := 0 }

/-- `SpiralGame.begin_block_cooldown`. -/
def begin_block_cooldown (block : BlockItem) (now : ℤ) : BlockItem :=
let block :=
  { block with
    is_active := false
    cooldown_start_ms := now
    cooldown_end_ms := now + pyInt (block.cooldown_duration * 1000) }
if block.cooldown_duration ≤ 0 then activate_block block now else block

/-- `SpiralGame.update_blocks`. -/
def update_blocks (w : World) (now : ℤ) : World :=
{ w with
  blocks :=
    w.blocks.map
      (fun block =>
        if block.is_active then
          let block :=
            if block.active_until_ms = 0 then
              { block with
                active_until_ms := block.spawn_ms + pyInt (block.active_duration * 1000) }
            else block
          if block.active_until_ms ≤ now then begin_block_cooldown block now else block
        else
          let cooldown_ready := block.cooldown_end_ms = 0 ∨ block.cooldown_end_ms ≤ now
          if block.cooldown_duration ≤ 0 ∨ cooldown_ready then activate_block block now
          else block) }

/-- `SpiralGame.activate_portals`. -/
def activate_portals (w : World) (now : ℤ) : World :=
if w.portals.length < 2 then
  { w with
    portal_state := PortalState.inactive
    portal_active_until := 0
    portal_cooldown_until := 0 }
else
  { w with
    portal_state := PortalState.active
    portal_active_until := now + pyInt (PORTAL_ACTIVE_DURATION * 1000)
    portal_cooldown_until := 0 }

/-- `SpiralGame.update_portals`. -/
def update_portals (w : World) (now : ℤ) : World :=
if w.portals.length < 2 then
  { w with
    portal_state := PortalState.inactive
    portal_active_until := 0
    portal_cooldown_until := 0 }
else
  match w.portal_state with
  | PortalState.inactive => activate_portals w now
  | PortalState.active =>
    if w.portal_active_until ≤ now then
      { w with
        portal_state := PortalState.cooldown
        portal_cooldown_until := now + pyInt (PORTAL_COOLDOWN_DURATION * 1000)
        portal_active_until := 0 }
    else w
  | PortalState.cooldown =>
    if w.portal_cooldown_until ≤ now then activate_portals w now else w

def WIDTH : ℚ := 820
def HEIGHT : ℚ := 620
def SHOP_WIDTH : ℚ := 140
def UTILITY_WIDTH : ℚ := 150

/-- Squared Euclidean distance; every `math.hypot(...) <= r` test of the
source is rendered by the equivalent comparison of squares (both sides
are non-negative), which keeps the embedding inside `ℚ`. -/
def dist_sq (p q : ℚ × ℚ) : ℚ := (p.1 - q.1) ^ 2 + (p.2 - q.2) ^ 2

/-- Ordering key used by `self.portals.sort(key=lambda item: item.progress)`. -/
def portalLE (a b : PortalItem) : Prop := a.progress ≤ b.progress

instance : DecidableRel portalLE :=
fun a b => inferInstanceAs (Decidable (a.progress ≤ b.progress))

instance : IsTotal PortalItem portalLE := ⟨fun a b => le_total a.progress b.progress⟩

instance : IsTrans PortalItem portalLE := ⟨fun _ _ _ h1 h2 => le_trans h1 h2⟩

/-- Python's `list.sort` (stable, ascending); insertion sort with a
reflexive total order is stable, so it computes the same list. -/
def sort_portals (l : List PortalItem) : List PortalItem := l.insertionSort portalLE

def pipeLE (a b : PipeItem) : Prop := a.entry_progress ≤ b.entry_progress

instance : DecidableRel pipeLE :=
fun a b => inferInstanceAs (Decidable (a.entry_progress ≤ b.entry_progress))

def sort_pipes (l : List PipeItem) : List PipeItem := l.insertionSort pipeLE

def turboLE (a b : TurboPipeItem) : Prop := a.start_progress ≤ b.start_progress

instance : DecidableRel turboLE :=
fun a b => inferInstanceAs (Decidable (a.start_progress ≤ b.start_progress))

def sort_turbos (l : List TurboPipeItem) : List TurboPipeItem := l.insertionSort turboLE

/-- `SpiralGame.track_span_occupied`. -/
def track_span_occupied (w : World) (start_prog end_prog : ℚ) : Bool :=
let s1 := max 0 (min start_prog end_prog) - TRACK_POINT_TOLERANCE
let e1 := min 1 (max start_prog end_prog) + TRACK_POINT_TOLERANCE
let s := max 0 s1
let e := min 1 e1
(w.blocks.any fun block => decide (s ≤ block.progress ∧ block.progress ≤ e)) ||
  (w.bouncers.any fun b => decide (s ≤ b.progress ∧ b.progress ≤ e)) ||
  (w.storm_emitters.any fun st => decide (s ≤ st.progress ∧ st.progress ≤ e)) ||
  (w.portals.any fun p => decide (s ≤ p.progress ∧ p.progress ≤ e)) ||
  (w.turbo_pipes.any fun t =>
    decide (min t.start_progress t.end_progress ≤ e ∧
      s ≤ max t.start_progress t.end_progress))

/-- `SpiralGame.track_point_occupied`. -/
def track_point_occupied (w : World) (progress : ℚ) : Bool :=
track_span_occupied w progress progress

/-- Scan of `try_accelerate_portal_cooldown`'s `for portal` loop: the first
portal within `PORTAL_INFUSION_RANGE` of the click (squared comparison). -/
def portal_infusion_scan (pos : ℚ × ℚ) : List PortalItem → Option PortalItem
| [] => none
| portal :: rest =>
  if PORTAL_INFUSION_RANGE ^ 2 < dist_sq pos portal.center then
    portal_infusion_scan pos rest
  else some portal

/-- `SpiralGame.try_accelerate_portal_cooldown`. -/
def try_accelerate_portal_cooldown (w : World) (now : ℤ) (pos : ℚ × ℚ) : Bool × World :=
if w.portal_state ≠ PortalState.cooldown ∨ w.portals.length < 2 then (false, w)
else
  match portal_infusion_scan pos w.portals with
  | none => (false, w)
  | some _ =>
    let reduction_ms := pyInt (PORTAL_COOLDOWN_REDUCTION * 1000)
    let remaining := max 0 (w.portal_cooldown_until - now)
    let remaining := max 0 (remaining - reduction_ms)
    if remaining = 0 then (true, activate_portals w now)
    else (true, { w with portal_cooldown_until := now + remaining })

/-- `SpiralGame.place_portal`.  The click-to-track geometry
(`nearest_point_on_track` + `snap_progress_point`, which involves
square-root arc lengths) is abstracted: the snapped node `(x, y,
progress)` is passed in; the placement bookkeeping is modelled exactly. -/
def place_portal (w : World) (now : ℤ) (x y progress : ℚ) : World :=
match w.placing_portal with
| none => w
| some portal =>
  let target_point : ℚ × ℚ := (x, y)
  if w.portal_state = PortalState.cooldown ∧ 2 ≤ w.portals.length then
    let acc := try_accelerate_portal_cooldown w now target_point
    if acc.1 then { acc.2 with placing_portal := none } else acc.2
  else if track_point_occupied w progress then w
  else
    let portal := { portal with center := target_point, progress := progress }
    let w := { w with
      portals := sort_portals (w.portals ++ [portal])
      placing_portal := none }
    let w :=
      if 2 < w.portals.length then
        { w with portals := sort_portals (w.portals.drop (w.portals.length - 2)) }
      else w
    { w with
      portal_state := PortalState.inactive
      portal_active_until := 0
      portal_cooldown_until := 0 }

/-- `SpiralGame.place_pipe` with the click-to-geometry computation
(track intersections, snapping — square-root arc lengths) abstracted as
inputs; the bookkeeping on the pending pipe is modelled exactly. -/
def place_pipe (w : World) (rect : Rect) (entry_y exit_y entry_prog exit_prog x : ℚ) :
    World :=
match w.placing_pipe with
| none => w
| some pipe =>
  let pipe :=
    { pipe with
      rect := some rect
      entry_progress := entry_prog
      exit_progress := exit_prog
      entry_y := entry_y
      exit_y := exit_y
      x := x }
  { w with pipes := sort_pipes (w.pipes ++ [pipe]), placing_pipe := none }

/-- `SpiralGame.place_block` with the snapped node passed in. -/
def place_block (w : World) (now : ℤ) (x y progress : ℚ) : World :=
match w.placing_block with
| none => w
| some block =>
  if track_point_occupied w progress then w
  else
    let block := activate_block { block with pos := (x, y), progress := progress } now
    { w with blocks := w.blocks ++ [block], placing_block := none }

/-- `SpiralGame.place_turbo_pipe` with the snapped span and sampled
positions passed in. -/
def place_turbo_pipe (w : World) (start_prog end_prog : ℚ)
    (positions : List (ℚ × ℚ)) : World :=
match w.placing_turbo_pipe with
| none => w
| some turbo =>
  if track_span_occupied w start_prog end_prog then w
  else
    let turbo :=
      { turbo with
        start_progress := start_prog
        end_progress := end_prog
        positions := positions }
    { w with
      turbo_pipes := sort_turbos (w.turbo_pipes ++ [turbo])
      placing_turbo_pipe := none }

/-- `SpiralGame.pending_bouncer_target`. -/
def pending_bouncer_target (w : World) : Option BouncerItem :=
w.bouncers.find? (fun b => ¬ b.ready_to_drop ∧ 0 < b.removals_remaining)

/-- `SpiralGame.update_bouncer_supply` together with
`spawn_bouncer_drops`: triggered pads are removed and their randomized
scatter of pickups (3–5 capsules at random offsets around the pad, whose
positions come from square-root track geometry) is abstracted as the
input list `drops`; no coin, score or ball field is touched. -/
def update_bouncer_supply (w : World) (drops : List TrackPowerup) : World :=
if w.bouncers.any (fun b => b.ready_to_drop ∨ b.removals_remaining ≤ 0) then
  { w with
    bouncers := w.bouncers.filter (fun b => ¬(b.ready_to_drop ∨ b.removals_remaining ≤ 0))
    track_powerups := w.track_powerups ++ drops
    powerup_counter := w.powerup_counter + drops.length }
else w

/-- `SpiralGame.place_bouncer` with the snapped node passed in. -/
def place_bouncer (w : World) (x y progress : ℚ) (drops : List TrackPowerup) : World :=
match w.placing_bouncer with
| none => w
| some bouncer =>
  if track_point_occupied w progress then w
  else
    let bouncer :=
      { bouncer with
        center := (x, y)
        progress := progress
        removals_remaining := BOUNCER_TRIGGER_REMOVALS
        ready_to_drop := false }
    let w := { w with bouncers := w.bouncers ++ [bouncer], placing_bouncer := none }
    update_bouncer_supply w drops

/-- `SpiralGame.place_storm` with the snapped node passed in. -/
def place_storm (w : World) (now : ℤ) (x y progress : ℚ) : World :=
match w.placing_storm with
| none => w
| some storm =>
  if track_point_occupied w progress then w
  else
    let storm :=
      { storm with
        center := (x, y)
        progress := progress
        window_count := 0
        counted_eggs := 0
        animation_until := 0
        last_reward := 0
        settle_at := now + STORM_WINDOW_DURATION
        expires_at := now + STORM_LIFETIME_MS }
    { w with storm_emitters := w.storm_emitters ++ [storm], placing_storm := none }

/-- `SpiralGame.handle_tool_removed`: decrement the pending bounce pad's
removal counter (the in-place mutation of the found pad is rendered by a
first-occurrence replacement) and resolve any resulting supply drop. -/
def handle_tool_removed (w : World) (drops : List TrackPowerup) : World :=
if w.bouncers = [] then w
else
  match pending_bouncer_target w with
  | none => w
  | some target =>
    let updated := { target with removals_remaining := max 0 (target.removals_remaining - 1) }
    let updated :=
      if updated.removals_remaining = 0 then { updated with ready_to_drop := true }
      else updated
    update_bouncer_supply { w with bouncers := w.bouncers.replace target updated } drops

def Rect.inflate (r : Rect) (dx dy : ℚ) : Rect :=
{ left := r.left - dx / 2, top := r.top - dy / 2, width := r.width + dx, height := r.height + dy }

/-- `pygame.Rect.collidepoint`. -/
def Rect.collidepoint (r : Rect) (pos : ℚ × ℚ) : Bool :=
decide (r.left ≤ pos.1 ∧ pos.1 < r.right ∧ r.top ≤ pos.2 ∧ pos.2 < r.bottom)

/-- `SpiralGame.remove_pipe_at`: iterate `reversed(self.pipes)`, remove
the first hit (Python's `list.remove` erases the first equal element). -/
def remove_pipe_at (w : World) (pos : ℚ × ℚ) : Bool × World :=
if w.pipes = [] then (false, w)
else
  match w.pipes.reverse.find?
      (fun pipe =>
        match pipe.rect with
        | none => false
        | some r => (r.inflate 20 20).collidepoint pos) with
  | none => (false, w)
  | some pipe => (true, { w with pipes := w.pipes.erase pipe })

/-- `SpiralGame.remove_block_at` (circle test on squares). -/
def remove_block_at (w : World) (pos : ℚ × ℚ) : Bool × World :=
if w.blocks = [] then (false, w)
else
  match w.blocks.reverse.find?
      (fun block => decide (dist_sq pos block.pos ≤ (block.radius + 12) ^ 2)) with
  | none => (false, w)
  | some block => (true, { w with blocks := w.blocks.erase block })

/-- `point_segment_distance` compared against a limit, on squares; the
degenerate-segment guard mirrors the source's `abs(d) < 1e-6` tests. -/
def point_segment_within (p a b : ℚ × ℚ) (limit : ℚ) : Bool :=
let dx := b.1 - a.1
let dy := b.2 - a.2
if |dx| < 1/1000000 ∧ |dy| < 1/1000000 then decide (dist_sq p a ≤ limit ^ 2)
else
  let t := ((p.1 - a.1) * dx + (p.2 - a.2) * dy) / (dx * dx + dy * dy)
  let t := max 0 (min 1 t)
  decide (dist_sq p (a.1 + dx * t, a.2 + dy * t) ≤ limit ^ 2)

/-- `polyline_distance(points, pos) <= limit`: the minimum over segments
is within the limit iff some segment is. -/
def polyline_within (points : List (ℚ × ℚ)) (pos : ℚ × ℚ) (limit : ℚ) : Bool :=
if points.length < 2 then false
else (points.zip points.tail).any (fun ab => point_segment_within pos ab.1 ab.2 limit)

/-- `SpiralGame.remove_turbo_pipe_at`.  The lazy rebuild of empty
`positions` from track geometry (square-root arc lengths) is not
modelled: a placed or cloned turbo always carries its sampled positions,
and an empty list simply never matches (distance `inf`). -/
def remove_turbo_pipe_at (w : World) (pos : ℚ × ℚ) : Bool × World :=
if w.turbo_pipes = [] then (false, w)
else
  match w.turbo_pipes.reverse.find? (fun turbo => polyline_within turbo.positions pos 18) with
  | none => (false, w)
  | some turbo => (true, { w with turbo_pipes := w.turbo_pipes.erase turbo })

/-- `SpiralGame.remove_bouncer_at`. -/
def remove_bouncer_at (w : World) (pos : ℚ × ℚ) : Bool × World :=
if w.bouncers = [] then (false, w)
else
  match w.bouncers.reverse.find?
      (fun b => decide (dist_sq pos b.center ≤ (b.radius + 12) ^ 2)) with
  | none => (false, w)
  | some b => (true, { w with bouncers := w.bouncers.erase b })

/-- `SpiralGame.remove_storm_at`. -/
def remove_storm_at (w : World) (pos : ℚ × ℚ) : Bool × World :=
if w.storm_emitters = [] then (false, w)
else
  match w.storm_emitters.reverse.find?
      (fun s => decide (dist_sq pos s.center ≤ (s.radius + 12) ^ 2)) with
  | none => (false, w)
  | some s => (true, { w with storm_emitters := w.storm_emitters.erase s })

/-- `SpiralGame.remove_portal_at`. -/
def remove_portal_at (w : World) (pos : ℚ × ℚ) : Bool × World :=
if w.portals = [] then (false, w)
else
  match w.portals.reverse.find?
      (fun p => decide (dist_sq pos p.center ≤ (p.radius + 12) ^ 2)) with
  | none => (false, w)
  | some p =>
    (true,
      { w with
        portals := w.portals.erase p
        portal_state := PortalState.inactive
        portal_active_until := 0
        portal_cooldown_until := 0 })

/-- `SpiralGame.try_remove_item_at`: fixed priority order, with the
bounce-pad credit applied for every kind except `bouncer`. -/
def try_remove_item_at (w : World) (pos : ℚ × ℚ) (drops : List TrackPowerup) :
    Bool × World :=
let r := remove_pipe_at w pos
if r.1 then (true, handle_tool_removed r.2 drops)
else
  let r := remove_block_at w pos
  if r.1 then (true, handle_tool_removed r.2 drops)
  else
    let r := remove_turbo_pipe_at w pos
    if r.1 then (true, handle_tool_removed r.2 drops)
    else
      let r := remove_bouncer_at w pos
      if r.1 then (true, r.2)
      else
        let r := remove_storm_at w pos
        if r.1 then (true, handle_tool_removed r.2 drops)
        else
          let r := remove_portal_at w pos
          if r.1 then (true, handle_tool_removed r.2 drops) else (false, w)

/-- `SpiralGame.handle_right_click` (the removal popup is cosmetic and
not modelled). -/
def handle_right_click (w : World) (pos : ℚ × ℚ) (drops : List TrackPowerup) : World :=
if PASSIVE_UNLOCK_LEVEL ≤ w.current_level ∧ w.skill_selection_required then w
else if ¬(SHOP_WIDTH + 20 < pos.1 ∧ pos.1 < WIDTH - UTILITY_WIDTH - 20) then w
else
  let r := try_remove_item_at w pos drops
  if r.1 then { r.2 with coins := r.2.coins + REMOVAL_BONUS } else r.2

/-- `SpiralGame.trigger_storm`: settles a storm's counting window and pays
the rolled reward into score/coins while the round is active.  The
`random.randint` draw is modelled by `randintSeed` with an explicit
seed. -/
def trigger_storm (w : World) (now : ℤ) (seed : ℕ) (storm : StormItem) :
    World × StormItem :=
if 0 < storm.last_reward then (w, storm)
else
  let counted := max storm.counted_eggs storm.window_count
  let progress : ℚ := min 1 ((counted : ℚ) / ((max 1 STORM_WINDOW_TARGET : ℤ) : ℚ))
  let max_reward :=
    STORM_MIN_EGGS + pyInt (((STORM_MAX_EGGS - STORM_MIN_EGGS : ℤ) : ℚ) * progress)
  let max_reward := max STORM_MIN_EGGS (min STORM_MAX_EGGS max_reward)
  let reward := randintSeed STORM_MIN_EGGS max_reward seed
  let storm :=
    { storm with
      counted_eggs := counted
      last_reward := reward
      animation_until := now + STORM_ANIMATION_DURATION
      expires_at := now + STORM_ANIMATION_DURATION
      window_count := 0
      settle_at := 0 }
  if w.round_active then
    (check_round_victory { w with score := w.score + reward, coins := w.coins + reward },
      storm)
  else (w, storm)

/-- Body of the storm-emitter loop of `SpiralGame.update_storm_emitters`:
fire a settled storm, then keep or expire the emitter. -/
def storm_scan_step (now : ℤ) (seed : ℕ) (acc : World × List StormItem)
    (storm : StormItem) : World × List StormItem :=
let trig :=
  if storm.settle_at ≠ 0 ∧ storm.settle_at ≤ now ∧ storm.last_reward = 0 then
    trigger_storm acc.1 now seed storm
  else (acc.1, storm)
let keep :=
  if 0 < trig.2.last_reward then
    ¬(trig.2.animation_until ≠ 0 ∧ trig.2.animation_until ≤ now)
  else ¬(trig.2.expires_at ≠ 0 ∧ trig.2.expires_at ≤ now)
(trig.1, if keep then acc.2 ++ [trig.2] else acc.2)

/-- `SpiralGame.update_storm_emitters`. -/
def update_storm_emitters (w : World) (now : ℤ) (seed : ℕ) : World :=
if w.storm_emitters = [] then w
else
  let stepped := w.storm_emitters.foldl (storm_scan_step now seed) (w, [])
  { stepped.1 with storm_emitters := stepped.2 }

/-- `SpiralGame.can_use_speed_boost`. -/
def can_use_speed_boost (w : World) (now : ℤ) : Bool :=
w.speed_boost_unlocked && decide (0 < w.speed_boost_charges) &&
  !(speed_boost_active w now) && decide (w.speed_boost_cooldown_until ≤ now) &&
  w.round_active && w.round_start_ms.isSome

def SPEED_BOOST_DURATION : ℚ := 3
def SPEED_BOOST_COOLDOWN : ℚ := 20

/-- `SpiralGame.try_activate_speed_boost`. -/
def try_activate_speed_boost (w : World) (now : ℤ) : World :=
if can_use_speed_boost w now = false then w
else
  let active_until := now + pyInt (SPEED_BOOST_DURATION * 1000)
  { w with
    speed_boost_active_until := active_until
    speed_boost_cooldown_until := active_until + pyInt (SPEED_BOOST_COOLDOWN * 1000)
    speed_boost_charges := max 0 (w.speed_boost_charges - 1) }

/-- `SpiralGame.clone_pipes`: deep copies of immutable value records are
the records themselves in a pure embedding. -/
def clone_pipes (w : World) : List PipeItem := w.pipes

/-- `SpiralGame.clone_blocks`: carry geometry and upgrade state forward,
refresh the timers through `activate_block`. -/
def clone_blocks (w : World) (now : ℤ) : List BlockItem :=
w.blocks.map
  (fun block =>
    activate_block
      { id := block.id
        cost := block.cost
        progress := block.progress
        pos := block.pos
        radius := block.radius
        active_duration := block.active_duration
        cooldown_duration := block.cooldown_duration
        upgrade_count := block.upgrade_count }
      now)

/-- `SpiralGame.clone_turbo_pipes`. -/
def clone_turbo_pipes (w : World) : List TurboPipeItem := w.turbo_pipes

/-- `SpiralGame.clone_bouncers`. -/
def clone_bouncers (w : World) : List BouncerItem := w.bouncers

/-- `SpiralGame.clone_storm_emitters`. -/
def clone_storm_emitters (w : World) (now : ℤ) : List StormItem :=
w.storm_emitters.map
  (fun storm =>
    { id := storm.id
      cost := storm.cost
      center := storm.center
      progress := storm.progress
      radius := storm.radius
      window_count := 0
      counted_eggs := 0
      animation_until := 0
      last_reward := 0
      settle_at := now + STORM_WINDOW_DURATION
      expires_at := now + STORM_LIFETIME_MS })

/-- `SpiralGame.clone_portals`. -/
def clone_portals (w : World) : List PortalItem := w.portals

/-- `SpiralGame.reset_round` (`now` is the clock read used by the block
and storm clones and by `start_round_clock`). -/
def reset_round (w : World) (level : Option ℕ) (carry_items : Bool) (now : ℤ) : World :=
let w :=
  match level with
  | some l => { w with current_level := max 1 (min l w.max_level) }
  | none => w
let preserved_pipes := if carry_items then clone_pipes w else []
let preserved_blocks := if carry_items then clone_blocks w now else []
let preserved_turbos := if carry_items then clone_turbo_pipes w else []
let preserved_bouncers := if carry_items then clone_bouncers w else []
let preserved_storms := if carry_items then clone_storm_emitters w now else []
let preserved_portals := if carry_items then clone_portals w else []
let w :=
  { w with
    balls := []
    score := 0
    coins := 0
    spawn_timer := 0
    round_start_ms := none
    round_active := true
    round_result := none
    pipes := preserved_pipes
    placing_pipe := none
    pipe_counter := if carry_items then w.pipe_counter else 0
    pipe_purchases := if carry_items then w.pipe_purchases else 0
    blocks := preserved_blocks
    block_counter := if carry_items then w.block_counter else 0
    block_purchases := if carry_items then w.block_purchases else 0
    placing_block := none
    turbo_pipes := preserved_turbos
    turbo_counter := if carry_items then w.turbo_counter else 0
    turbo_purchases := if carry_items then w.turbo_purchases else 0
    placing_turbo_pipe := none
    bouncers := preserved_bouncers
    bouncer_counter := if carry_items then w.bouncer_counter else 0
    bouncer_purchases := if carry_items then w.bouncer_purchases else 0
    placing_bouncer := none
    storm_emitters := preserved_storms
    storm_counter := if carry_items then w.storm_counter else 0
    placing_storm := none
    portals := preserved_portals
    portal_counter := if carry_items then w.portal_counter else 0
    portal_purchases := if carry_items then w.portal_purchases else 0
    placing_portal := none
    portal_state := PortalState.inactive
    portal_active_until := 0
    portal_cooldown_until := 0
    speed_boost_unlocked := decide (ADVANCED_UNLOCK_LEVEL ≤ w.current_level)
    speed_boost_active_until := 0
    speed_boost_cooldown_until := 0
    active_skills := ∅
    skill_selection_required := decide (PASSIVE_UNLOCK_LEVEL ≤ w.current_level)
    skill_coin_timer := 0
    rapid_fire_timer := 0
    spawned_ball_count := 0
    track_powerups := []
    powerup_counter := 0
    speed_boost_charges := 0
    storm_charges := 0
    bouncepad_charges := 0 }
if w.skill_selection_required then w else { w with round_start_ms := some now }

/-- `SpiralGame.update` (one frame): the per-tick pipeline.
`update_powerups` (randomized collectible spawning at square-root lerp
positions) and `update_coin_popups` (cosmetic popup expiry) never touch
coins, score or balls and are not modelled; environment-supplied pickup
lists enter through the bounce-pad supply step. -/
def update (w : World) (now : ℤ) (dt : ℚ) (storm_seed : ℕ)
    (supply_drops : List TrackPowerup) : World :=
if w.round_start_ms = none then w
else
  let w :=
    if w.round_active then
      let w := { w with spawn_timer := w.spawn_timer + dt }
      run_spawn_loop (loop_count w.spawn_timer SPAWN_INTERVAL) w
    else w
  let w := update_balls w now dt
  let w := update_blocks w now
  let w := update_bouncer_supply w supply_drops
  let w := update_storm_emitters w now storm_seed
  let w := apply_skill_income w dt
  let w := apply_rapid_fire w dt
  update_portals w now

/-- The discrete operations a player or the frame loop can apply to the
world: one frame of `update`, the purchase handlers, the placement
handlers (with click geometry abstracted to the snapped inputs), removal
right-clicks, consumable activation, the lazy timer query, and the round
reset. -/
inductive GameOp where
| tick (now : ℤ) (dt : ℚ) (storm_seed : ℕ) (drops : List TrackPowerup)
| purchasePipe
| purchaseBlock
| purchaseTurbo
| purchasePortal
| purchaseStorm
| activateBouncepad
| activateSpeedBoost (now : ℤ)
| rightClick (pos : ℚ × ℚ) (drops : List TrackPowerup)
| placePipeOp (rect : Rect) (entry_y exit_y entry_prog exit_prog x : ℚ)
| placeBlockOp (now : ℤ) (x y progress : ℚ)
| placeTurboOp (start_prog end_prog : ℚ) (positions : List (ℚ × ℚ))
| placeBouncerOp (x y progress : ℚ) (drops : List TrackPowerup)
| placeStormOp (now : ℤ) (x y progress : ℚ)
| placePortalOp (now : ℤ) (x y progress : ℚ)
| queryRemainingTime (now : ℤ)
| resetRound (level : Option ℕ) (carry : Bool) (now : ℤ)

/-- Interpretation of a single operation. -/
def apply_op (w : World) : GameOp → World
| GameOp.tick now dt seed drops => update w now dt seed drops
| GameOp.purchasePipe => try_purchase_pipe w
| GameOp.purchaseBlock => try_purchase_block w
| GameOp.purchaseTurbo => try_purchase_turbo_pipe w
| GameOp.purchasePortal => try_purchase_portal w
| GameOp.purchaseStorm => try_purchase_storm w
| GameOp.activateBouncepad => try_activate_bouncepad w
| GameOp.activateSpeedBoost now => try_activate_speed_boost w now
| GameOp.rightClick pos drops => handle_right_click w pos drops
| GameOp.placePipeOp rect ey xy ep xp x => place_pipe w rect ey xy ep xp x
| GameOp.placeBlockOp now x y progress => place_block w now x y progress
| GameOp.placeTurboOp sp ep positions => place_turbo_pipe w sp ep positions
| GameOp.placeBouncerOp x y progress drops => place_bouncer w x y progress drops
| GameOp.placeStormOp now x y progress => place_storm w now x y progress
| GameOp.placePortalOp now x y progress => place_portal w now x y progress
| GameOp.queryRemainingTime now => (remaining_time w now).1
| GameOp.resetRound level carry now => reset_round w level carry now

/-- Interpretation of a sequence of operations, first op first. -/
def apply_ops (w : World) : List GameOp → World
| [] => w
| op :: rest => apply_ops (apply_op w op) rest

/-- Whether an operation is the round reset (the one operation that
starts a fresh round rather than acting within the current one). -/
def GameOp.isReset : GameOp → Bool
| GameOp.resetRound _ _ _ => true
| _ => false

/-- The coin-safety invariant: the wallet is non-negative and every live
ball's completion payout fields are non-negative. -/
def CoinInv (w : World) : Prop :=
0 ≤ w.coins ∧ ∀ b ∈ w.balls, 0 ≤ b.coin_value ∧ 0 ≤ b.bonus_score

/-- The pending portal as finalized by `place_portal` at the snapped
node. -/
def placed_portal (portal : PortalItem) (x y progress : ℚ) : PortalItem :=
{ portal with center := (x, y), progress := progress }

/-! Concrete fixtures used by the closed witness and counterexample
statements. -/

def crossBlockAt (p : ℚ) : BlockItem := { id := 11, progress := p, is_active := true }

def cexPortalA : PortalItem := { id := 1, center := (300, 300), progress := 8/10 }

def cexPortalB : PortalItem := { id := 2, center := (400, 300), progress := 9/10 }

def cexPortalNew : PortalItem := { id := 3, cost := 40 }

def cexPortalWorld : World :=
{ portals := [cexPortalA, cexPortalB]
  portal_state := PortalState.active
  placing_portal := some cexPortalNew
  current_level := 3 }

def crossPipe : PipeItem :=
{ id := 21
  rect := some { left := 100, top := 100, width := 26, height := 180 }
  entry_progress := 105/1000
  exit_progress := 1/2
  entry_y := 110
  exit_y := 270
  x := 113 }

def crossPortalE : PortalItem := { id := 31, center := (300, 400), progress := 105/1000 }

def crossPortalX : PortalItem := { id := 32, center := (300, 200), progress := 1/2 }

def crossPowerup : TrackPowerup := { id := 41, progress := 105/1000 }

def crossStorm : StormItem := { id := 51, progress := 105/1000, settle_at := 99999 }

def crossBall : Ball := { last_distance := 100, distance := 110 }

def skipPipe : PipeItem :=
{ id := 7
  rect := some { left := 300, top := 100, width := 26, height := 180 }
  entry_progress := 2/10
  exit_progress := 6/10
  entry_y := 110
  exit_y := 270
  x := 313 }

def skipWorld : World := { track_total := 1000, pipes := [skipPipe] }

def skipBall : Ball := { last_distance := 150, distance := 250, speed := 100 }

def turboZone : TurboPipeItem := { id := 5, start_progress := 3/10, end_progress := 35/100 }

def turboWorld : World := { track_total := 1000, turbo_pipes := [turboZone] }

def turboBall : Ball := { last_distance := 250, distance := 320, speed := 100 }

def danglingBall : Ball :=
{ in_pipe := true, pipe_id := some 7, pipe_y := 150, distance := 100
  last_distance := 100, speed := 50 }

def emptyPipesWorld : World := { track_total := 1000 }

def exitBall : Ball :=
{ in_pipe := true, pipe_id := some 7, pipe_y := 260, distance := 210
  last_distance := 210 }

def danglingBall99 : Ball :=
{ in_pipe := true, pipe_id := some 99, pipe_y := 150, distance := 100
  last_distance := 100, speed := 50 }

def crossWorld : World :=
{ track_total := 1000
  blocks := [crossBlockAt (105/1000)]
  pipes := [crossPipe]
  portals := [crossPortalE, crossPortalX]
  track_powerups := [crossPowerup]
  storm_emitters := [crossStorm]
  portal_state := PortalState.active }

/-- C1: half-open crossing semantics.  For a ball with pre-tick position
`last_distance` and post-tick position `distance` and each point gadget
kind — block, pipe entry, portal entry, power-up, storm emitter — located
at arc length `d`, the gadget's crossing effect fires in the tick exactly
when `last_distance < d ≤ distance`: each effect function equals its
fired outcome under that test and leaves its input unchanged otherwise
(gadget-enabling side conditions as hypotheses). -/
theorem crossing_half_open
    (w : World) (b : Ball) (now : ℤ) (dt : ℚ)
    (hb : b.in_pipe = false)
    (bl : BlockItem) (hblocks : w.blocks = [bl]) (hact : bl.is_active = true)
    (hbh : bl.id ∉ b.block_hits)
    (pipe : PipeItem) (hpipes : w.pipes = [pipe]) (rect : Rect)
    (hrect : pipe.rect = some rect) (hused : pipe.id ∉ b.used_pipes)
    (pE pX : PortalItem) (hportals : w.portals = [pE, pX])
    (hstate : w.portal_state = PortalState.active)
    (hy : pX.center.2 ≤ pE.center.2)
    (pu : TrackPowerup) (hpus : w.track_powerups = [pu])
    (st : StormItem) (hst : w.storm_emitters = [st]) (hsettle : st.settle_at ≠ 0)
    (hnow : now ≤ st.settle_at) :
    (apply_block_effects w b =
      if b.last_distance < progress_to_distance w bl.progress ∧
          progress_to_distance w bl.progress ≤ b.distance then
        { b with
          speed := max (b.speed * BLOCK_SLOW_FACTOR) 0
          block_hits := insert bl.id b.block_hits
          bonus_score := b.bonus_score + BLOCK_BONUS }
      else b) ∧
    (apply_pipe w now dt b =
      if b.last_distance < progress_to_distance w pipe.entry_progress ∧
          progress_to_distance w pipe.entry_progress ≤ b.distance then
        (true,
          { b with
            in_pipe := true
            pipe_id := some pipe.id
            pipe_y := if pipe.entry_y = 0 then rect.top + 10 else pipe.entry_y
            pipe_x := if pipe.x = 0 then rect.centerx else pipe.x
            speed := 0
            distance := max b.distance (progress_to_distance w pipe.entry_progress)
            last_distance := max b.distance (progress_to_distance w pipe.entry_progress) })
      else (false, b)) ∧
    (apply_portal_effects w b =
      if b.last_distance < progress_to_distance w pE.progress ∧
          progress_to_distance w pE.progress ≤ b.distance then
        { b with
          distance := progress_to_distance w pX.progress + BALL_RADIUS * (3/2)
          last_distance := progress_to_distance w pX.progress + BALL_RADIUS * (3/2)
          speed := max b.speed (BALL_ACCEL * (1/10)) }
      else b) ∧
    (check_powerup_collision w b =
      if b.last_distance < progress_to_distance w pu.progress ∧
          progress_to_distance w pu.progress ≤ b.distance then
        collect_powerup w pu
      else w) ∧
    (process_storm_pass w now b =
      if b.last_distance < progress_to_distance w st.progress ∧
          progress_to_distance w st.progress ≤ b.distance then
        { w with storm_emitters := [{ st with window_count := st.window_count + 1 }] }
      else w) := by
  refine ⟨?_, ?_, ?_, ?_, ?_⟩
  · rw [apply_block_effects, hblocks]
    simp only [List.foldl_cons, List.foldl_nil, block_step, hact]
    split_ifs with h1 h2 <;> simp_all
  · rw [apply_pipe, hpipes]
    simp only [hb]
    rw [pipe_entry_scan]
    simp only [hused, if_false, hrect]
    split_ifs with h1 <;> simp_all [pipe_entry_scan]
  · rw [apply_portal_effects, hportals]
    have hyy : ¬ pE.center.2 < pX.center.2 := not_lt.mpr hy
    simp only [hstate, hb, portal_entry_exit, hyy, if_false]
    split_ifs with h1 h2 <;> simp_all
  · rw [check_powerup_collision, hpus]
    simp only [hb]
    by_cases h1 : b.last_distance < progress_to_distance w pu.progress ∧
        progress_to_distance w pu.progress ≤ b.distance
    · simp [List.filter_cons, h1]
    · simp [List.filter_cons, h1]
  · have hn : ¬ st.settle_at < now := not_lt.mpr hnow
    rw [process_storm_pass, hst]
    simp only [List.map_cons, List.map_nil, hsettle, hn, if_false,
      List.cons_ne_nil, reduceCtorEq]
    split_ifs with h1
    · rfl
    · rw [← hst]

/-- C8: cost-schedule clamping for the three schedule-priced gadget kinds
(pipe, block, turbo): the price for the `(n+1)`-th purchase is the
schedule entry at index `min n (len - 1)`, an always-in-bounds index;
once the schedule is exhausted the last — and maximum — entry is charged;
and a successful purchase deducts exactly that price. -/
theorem cost_schedule_clamping (w : World) :
    (next_pipe_cost w =
        PIPE_COST_SCHEDULE.getD (min w.pipe_purchases (PIPE_COST_SCHEDULE.length - 1)) 0 ∧
      min w.pipe_purchases (PIPE_COST_SCHEDULE.length - 1) < PIPE_COST_SCHEDULE.length ∧
      (PIPE_COST_SCHEDULE.length ≤ w.pipe_purchases →
        next_pipe_cost w = PIPE_COST_SCHEDULE.getLastD 0) ∧
      (∀ c ∈ PIPE_COST_SCHEDULE, c ≤ PIPE_COST_SCHEDULE.getLastD 0) ∧
      (try_purchase_pipe w = w ∨
        (try_purchase_pipe w).coins = w.coins - next_pipe_cost w)) ∧
    (next_block_cost w =
        BLOCK_COST_SCHEDULE.getD (min w.block_purchases (BLOCK_COST_SCHEDULE.length - 1)) 0 ∧
      min w.block_purchases (BLOCK_COST_SCHEDULE.length - 1) < BLOCK_COST_SCHEDULE.length ∧
      (BLOCK_COST_SCHEDULE.length ≤ w.block_purchases →
        next_block_cost w = BLOCK_COST_SCHEDULE.getLastD 0) ∧
      (∀ c ∈ BLOCK_COST_SCHEDULE, c ≤ BLOCK_COST_SCHEDULE.getLastD 0) ∧
      (try_purchase_block w = w ∨
        (try_purchase_block w).coins = w.coins - next_block_cost w)) ∧
    (next_turbo_cost w =
        TURBO_PIPE_COST_SCHEDULE.getD
          (min w.turbo_purchases (TURBO_PIPE_COST_SCHEDULE.length - 1)) 0 ∧
      min w.turbo_purchases (TURBO_PIPE_COST_SCHEDULE.length - 1) <
        TURBO_PIPE_COST_SCHEDULE.length ∧
      (TURBO_PIPE_COST_SCHEDULE.length ≤ w.turbo_purchases →
        next_turbo_cost w = TURBO_PIPE_COST_SCHEDULE.getLastD 0) ∧
      (∀ c ∈ TURBO_PIPE_COST_SCHEDULE, c ≤ TURBO_PIPE_COST_SCHEDULE.getLastD 0) ∧
      (try_purchase_turbo_pipe w = w ∨
        (try_purchase_turbo_pipe w).coins = w.coins - next_turbo_cost w)) := by
  refine ⟨⟨rfl, ?_, ?_, by decide, ?_⟩, ⟨rfl, ?_, ?_, by decide, ?_⟩,
    ⟨rfl, ?_, ?_, by decide, ?_⟩⟩
  · have : PIPE_COST_SCHEDULE.length = 15 := by decide
    omega
  · intro h
    have h15 : PIPE_COST_SCHEDULE.length = 15 := by decide
    have : min w.pipe_purchases (PIPE_COST_SCHEDULE.length - 1) = 14 := by omega
    rw [next_pipe_cost, this]
    decide
  · rw [try_purchase_pipe]
    split_ifs with h1
    · exact Or.inl rfl
    · by_cases h2 : w.coins < next_pipe_cost w
      · exact Or.inl (by simp [h2])
      · exact Or.inr (by simp [h2])
  · have : BLOCK_COST_SCHEDULE.length = 16 := by decide
    omega
  · intro h
    have h16 : BLOCK_COST_SCHEDULE.length = 16 := by decide
    have : min w.block_purchases (BLOCK_COST_SCHEDULE.length - 1) = 15 := by omega
    rw [next_block_cost, this]
    decide
  · rw [try_purchase_block]
    split_ifs with h1 h2
    · exact Or.inl rfl
    · exact Or.inl rfl
    · by_cases h3 : w.coins < next_block_cost w
      · exact Or.inl (by simp [h3])
      · exact Or.inr (by simp [h3])
  · have : TURBO_PIPE_COST_SCHEDULE.length = 8 := by decide
    omega
  · intro h
    have h8 : TURBO_PIPE_COST_SCHEDULE.length = 8 := by decide
    have : min w.turbo_purchases (TURBO_PIPE_COST_SCHEDULE.length - 1) = 7 := by omega
    rw [next_turbo_cost, this]
    decide
  · rw [try_purchase_turbo_pipe]
    split_ifs with h1 h2
    · exact Or.inl rfl
    · exact Or.inl rfl
    · by_cases h3 : w.coins < next_turbo_cost w
      · exact Or.inl (by simp [h3])
      · exact Or.inr (by simp [h3])

/-- Witness for the crossing theorem, at the spec's concrete numbers:
with `last_distance = 100` and `distance = 110` on a length-1000 track, a
block at arc length 100 does not trigger while blocks at 105 and at 110
do. -/
theorem crossing_half_open_witness :
    apply_block_effects { crossWorld with blocks := [crossBlockAt (1/10)] } crossBall =
      crossBall ∧
    11 ∈ (apply_block_effects { crossWorld with blocks := [crossBlockAt (105/1000)] }
      crossBall).block_hits ∧
    11 ∈ (apply_block_effects { crossWorld with blocks := [crossBlockAt (11/100)] }
      crossBall).block_hits := by
  refine ⟨?_, ?_, ?_⟩
  · rw [(crossing_half_open _ crossBall 0 0 rfl _ rfl (by decide) (by decide)
      crossPipe rfl { left := 100, top := 100, width := 26, height := 180 } rfl
      (by decide) crossPortalE crossPortalX rfl rfl (by with_unfolding_all decide)
      crossPowerup rfl crossStorm rfl (by decide) (by decide)).1,
      if_neg (by with_unfolding_all decide)]
  · rw [(crossing_half_open _ crossBall 0 0 rfl _ rfl (by decide) (by decide)
      crossPipe rfl { left := 100, top := 100, width := 26, height := 180 } rfl
      (by decide) crossPortalE crossPortalX rfl rfl (by with_unfolding_all decide)
      crossPowerup rfl crossStorm rfl (by decide) (by decide)).1,
      if_pos (by with_unfolding_all decide)]
    decide
  · rw [(crossing_half_open _ crossBall 0 0 rfl _ rfl (by decide) (by decide)
      crossPipe rfl { left := 100, top := 100, width := 26, height := 180 } rfl
      (by decide) crossPortalE crossPortalX rfl rfl (by with_unfolding_all decide)
      crossPowerup rfl crossStorm rfl (by decide) (by decide)).1,
      if_pos (by with_unfolding_all decide)]
    decide

/-- Witness for the cost-schedule theorem: with 20 prior purchases of each
kind the schedules are exhausted and their final prices are charged. -/
theorem cost_schedule_clamping_witness :
    next_pipe_cost { pipe_purchases := 20, block_purchases := 20, turbo_purchases := 20 } =
      5000 ∧
    next_block_cost { pipe_purchases := 20, block_purchases := 20, turbo_purchases := 20 } =
      1500 ∧
    next_turbo_cost { pipe_purchases := 20, block_purchases := 20, turbo_purchases := 20 } =
      5000 := by
  have h := cost_schedule_clamping
    { pipe_purchases := 20, block_purchases := 20, turbo_purchases := 20 }
  exact ⟨(h.1.2.2.1 (by decide)).trans (by decide),
    (h.2.1.2.2.1 (by decide)).trans (by decide),
    (h.2.2.2.2.1 (by decide)).trans (by decide)⟩

lemma sort_portals_perm (l : List PortalItem) : List.Perm (sort_portals l) l :=
List.perm_insertionSort _ _

lemma sort_portals_sorted (l : List PortalItem) : List.Sorted portalLE (sort_portals l) :=
List.sorted_insertionSort _ _

/-- C4, counterexample: with live portals at progress 0.8 (placed first)
and 0.9 (placed second), placing a third portal at progress 0.1 retains
the portals at 0.8 and 0.9 and discards the just-placed portal (id 3) —
not the two most-recently-placed ones. -/
theorem portal_retention_counterexample :
    (place_portal cexPortalWorld 0 500 300 (1/10)).portals = [cexPortalA, cexPortalB] ∧
    ∀ p ∈ (place_portal cexPortalWorld 0 500 300 (1/10)).portals, p.id ≠ 3 := by
  with_unfolding_all decide

/-- C4 (amended): when finalizing a portal placement while two or more
portals are already live (and the pair is not in cooldown, the node not
occupied), exactly two portals are retained, all drawn from the old
portals plus the newly placed one, and every discarded portal's track
progress is at most every retained portal's progress — i.e. the two
portals of greatest progress survive, not the two most recently
placed. -/
theorem portal_retention_top_progress
    (w : World) (now : ℤ) (x y progress : ℚ) (portal : PortalItem)
    (hplacing : w.placing_portal = some portal)
    (hcooldown : ¬(w.portal_state = PortalState.cooldown ∧ 2 ≤ w.portals.length))
    (hocc : track_point_occupied w progress = false)
    (hcount : 2 ≤ w.portals.length) :
    (place_portal w now x y progress).portals.length = 2 ∧
    (∀ p ∈ (place_portal w now x y progress).portals,
      p ∈ w.portals ++ [placed_portal portal x y progress]) ∧
    (∀ q ∈ w.portals ++ [placed_portal portal x y progress],
      q ∉ (place_portal w now x y progress).portals →
        ∀ p ∈ (place_portal w now x y progress).portals, q.progress ≤ p.progress) := by
  have hocc' : ¬ (track_point_occupied w progress = true) := by simp [hocc]
  have hlen : (sort_portals (w.portals ++ [placed_portal portal x y progress])).length =
      w.portals.length + 1 := by
    simp [sort_portals]
  have hgt : 2 < (sort_portals (w.portals ++ [placed_portal portal x y progress])).length := by
    omega
  have hres : (place_portal w now x y progress).portals =
      sort_portals ((sort_portals (w.portals ++ [placed_portal portal x y progress])).drop
        ((sort_portals (w.portals ++ [placed_portal portal x y progress])).length - 2)) := by
    rw [place_portal, hplacing]
    simp only [placed_portal] at hgt ⊢
    rw [if_neg hcooldown, if_neg hocc', if_pos hgt]
  set l := w.portals ++ [placed_portal portal x y progress] with hl
  set s := sort_portals l with hs
  set k := s.length - 2 with hk
  have hsperm : List.Perm s l := sort_portals_perm l
  have hssorted : List.Sorted portalLE s := sort_portals_sorted l
  have hmem : ∀ p, p ∈ (place_portal w now x y progress).portals ↔ p ∈ s.drop k := by
    intro p
    rw [hres]
    exact List.Perm.mem_iff (sort_portals_perm _)
  refine ⟨?_, ?_, ?_⟩
  · rw [hres]
    simp only [sort_portals, List.length_insertionSort, List.length_drop]
    omega
  · intro p hp
    rw [hmem] at hp
    exact hsperm.mem_iff.mp (List.drop_subset k s hp)
  · intro q hq hqnot p hp
    rw [hmem] at hqnot hp
    have hqs : q ∈ s := hsperm.mem_iff.mpr hq
    have hqtake : q ∈ s.take k := by
      rcases (List.mem_append.mp (by rw [List.take_append_drop k s]; exact hqs)) with h | h
      · exact h
      · exact absurd h hqnot
    have hpair := hssorted
    rw [← List.take_append_drop k s] at hpair
    exact (List.pairwise_append.mp hpair).2.2 q hqtake p hp

/-- Witness for the amended portal-retention theorem at the
counterexample's input. -/
theorem portal_retention_top_progress_witness :
    (place_portal cexPortalWorld 0 500 300 (1/10)).portals.length = 2 ∧
    ∀ p ∈ (place_portal cexPortalWorld 0 500 300 (1/10)).portals,
      p ∈ cexPortalWorld.portals ++ [placed_portal cexPortalNew 500 300 (1/10)] := by
  have h := portal_retention_top_progress cexPortalWorld 0 500 300 (1/10) cexPortalNew
    rfl (by decide) (by with_unfolding_all decide) (by decide)
  exact ⟨h.1, h.2.1⟩

/-- C5, counterexample: on the spec's pipe-skip track (length 1000, pipe
entry at 200, exit at 600), a ball crossing 200 with positive speed is
captured into pipe transit, but its `used_pipes` set stays empty — it
does not immediately equal `{pipe.id}` as the claim states (the id is
only recorded on transit completion). -/
theorem pipe_skip_used_pipes_counterexample :
    (apply_pipe skipWorld 0 (1/60) skipBall).2.in_pipe = true ∧
    (apply_pipe skipWorld 0 (1/60) skipBall).2.pipe_id = some 7 ∧
    (apply_pipe skipWorld 0 (1/60) skipBall).2.used_pipes = ∅ := by
  with_unfolding_all decide

/-- C5 (amended): on the spec's pipe-skip track, a ball whose movement
interval crosses distance 200 (pipe unused) immediately has
`in_pipe = true` and `pipe_id = pipe.id` with `used_pipes` unchanged
(still empty), and upon completing the transit the pipe id is added to
`used_pipes` and the ball resumes at `distance ≥ 600`. -/
theorem pipe_skip_scenario
    (b : Ball) (hb : b.in_pipe = false) (hused : skipPipe.id ∉ b.used_pipes)
    (hspeed : 0 < b.speed)
    (hcross : b.last_distance < 200 ∧ (200:ℚ) ≤ b.distance)
    (now : ℤ) (dt : ℚ) :
    ((apply_pipe skipWorld now dt b).1 = true ∧
      (apply_pipe skipWorld now dt b).2.in_pipe = true ∧
      (apply_pipe skipWorld now dt b).2.pipe_id = some skipPipe.id ∧
      (apply_pipe skipWorld now dt b).2.used_pipes = b.used_pipes ∧
      (apply_pipe skipWorld now dt b).2.speed = 0) ∧
    (∀ b2 : Ball, b2.in_pipe = true → b2.pipe_id = some skipPipe.id →
      skipPipe.exit_y ≤ b2.pipe_y + PIPE_SPEED * speed_boost_multiplier skipWorld now * dt →
      (apply_pipe skipWorld now dt b2).2.used_pipes = insert skipPipe.id b2.used_pipes ∧
      (600:ℚ) ≤ (apply_pipe skipWorld now dt b2).2.distance ∧
      (apply_pipe skipWorld now dt b2).2.in_pipe = false) := by
  have hentry : progress_to_distance skipWorld skipPipe.entry_progress = 200 := by
    set_option maxRecDepth 4000 in with_unfolding_all decide
  have hexit : progress_to_distance skipWorld skipPipe.exit_progress = 600 := by
    set_option maxRecDepth 4000 in with_unfolding_all decide
  have hnil : ¬ (skipWorld.pipes = []) := by simp [skipWorld]
  have hr : skipPipe.rect =
      some { left := 300, top := 100, width := 26, height := 180 } := rfl
  constructor
  · have hscan : pipe_entry_scan skipWorld b skipWorld.pipes =
        (true,
          { b with
            in_pipe := true
            pipe_id := some skipPipe.id
            pipe_y := skipPipe.entry_y
            pipe_x := skipPipe.x
            speed := 0
            distance := max b.distance 200
            last_distance := max b.distance 200 }) := by
      show pipe_entry_scan skipWorld b [skipPipe] = _
      rw [pipe_entry_scan]
      rw [if_neg (by simpa using hused), hr]
      dsimp only
      simp only [hentry]
      rw [if_pos hcross]
      have hey : ¬ skipPipe.entry_y = 0 := by decide
      have hx : ¬ skipPipe.x = 0 := by decide
      simp [hey, hx]
    have happ : apply_pipe skipWorld now dt b = pipe_entry_scan skipWorld b skipWorld.pipes := by
      rw [apply_pipe, if_neg hnil]
      simp [hb]
    rw [happ, hscan]
    simp
  · intro b2 h1 h2 h3
    have hfind : get_pipe_by_id skipWorld b2.pipe_id = some skipPipe := by
      rw [h2]
      rfl
    have hey : ¬ skipPipe.exit_y = 0 := by decide
    have happ : apply_pipe skipWorld now dt b2 =
        (true,
          { b2 with
            pipe_y := skipPipe.exit_y
            in_pipe := false
            pipe_id := none
            used_pipes := insert skipPipe.id b2.used_pipes
            distance := max b2.distance 600
            last_distance := max b2.distance 600 }) := by
      rw [apply_pipe, if_neg hnil]
      simp only [h1, if_true]
      rw [hfind]
      dsimp only
      rw [hr]
      dsimp only
      simp only [hey, if_false, hexit]
      rw [if_pos h3]
    rw [happ]
    refine ⟨rfl, le_max_right _ _, rfl⟩

/-- C6: turbo one-shot multiplier.  On a ball's first entry into a turbo
zone (movement interval overlaps the zone, `last_distance` at or before
the zone start, zone id not yet in `turbo_hits`), `score_value` is
doubled exactly once and the id is recorded; on any later tick in which
the id is already recorded, `score_value` is never doubled again and the
record persists. -/
theorem turbo_one_shot_multiplier
    (w : World) (z : TurboPipeItem) (hzones : w.turbo_pipes = [z])
    (b : Ball) (dt mult : ℚ)
    (hoverlap : b.last_distance < progress_to_distance w z.end_progress ∧
      progress_to_distance w z.start_progress < b.distance)
    (hfirst : z.id ∉ b.turbo_hits)
    (hentry : b.last_distance ≤ progress_to_distance w z.start_progress) :
    ((apply_turbo_effects w dt mult b).score_value = b.score_value * 2 ∧
      z.id ∈ (apply_turbo_effects w dt mult b).turbo_hits) ∧
    (∀ b2 : Ball, z.id ∈ b2.turbo_hits →
      (apply_turbo_effects w dt mult b2).score_value = b2.score_value ∧
      z.id ∈ (apply_turbo_effects w dt mult b2).turbo_hits) := by
  have hmul : (1:ℚ) < TURBO_PIPE_MULTIPLIER := by norm_num [TURBO_PIPE_MULTIPLIER]
  constructor
  · rw [apply_turbo_effects, hzones]
    simp only [List.foldl_cons, List.foldl_nil, turbo_step]
    rw [if_pos hoverlap, if_pos (And.intro hfirst hentry)]
    dsimp only
    rw [if_pos (lt_max_of_lt_right hmul)]
    exact ⟨rfl, Finset.mem_insert_self _ _⟩
  · intro b2 hhit
    rw [apply_turbo_effects, hzones]
    simp only [List.foldl_cons, List.foldl_nil, turbo_step]
    by_cases hov : b2.last_distance < progress_to_distance w z.end_progress ∧
        progress_to_distance w z.start_progress < b2.distance
    · rw [if_pos hov, if_neg (show ¬(z.id ∉ b2.turbo_hits ∧
        b2.last_distance ≤ progress_to_distance w z.start_progress) by simp [hhit])]
      split_ifs <;> exact ⟨rfl, hhit⟩
    · rw [if_neg hov]
      split_ifs <;> exact ⟨rfl, hhit⟩

/-- Witness for the turbo one-shot theorem: a `score_value = 1` ball
entering the zone for the first time ends with `score_value = 2`, and a
second pass of the effect on the resulting ball leaves it at 2. -/
theorem turbo_one_shot_multiplier_witness :
    (apply_turbo_effects turboWorld (1/60) 1 turboBall).score_value = 2 ∧
    (apply_turbo_effects turboWorld (1/60) 1
      (apply_turbo_effects turboWorld (1/60) 1 turboBall)).score_value = 2 := by
  have h := turbo_one_shot_multiplier turboWorld turboZone rfl turboBall (1/60) 1
    (by with_unfolding_all decide) (by decide) (by with_unfolding_all decide)
  refine ⟨?_, ?_⟩
  · rw [h.1.1]
    decide
  · have h2 := h.2 (apply_turbo_effects turboWorld (1/60) 1 turboBall) h.1.2
    rw [h2.1, h.1.1]
    decide

lemma pipe_entry_scan_self (w : World) (b : Ball) (h : b.last_distance = b.distance) :
    ∀ l : List PipeItem, pipe_entry_scan w b l = (false, b) := by
  intro l
  induction l with
  | nil => rfl
  | cons pipe rest ih =>
    rw [pipe_entry_scan]
    by_cases h1 : pipe.id ∈ b.used_pipes
    · simpa [h1] using ih
    · have hcond : ¬(b.last_distance < progress_to_distance w pipe.entry_progress ∧
          progress_to_distance w pipe.entry_progress ≤ b.distance) := by
        rintro ⟨h2, h3⟩
        rw [h] at h2
        exact absurd (lt_of_lt_of_le h2 h3) (lt_irrefl _)
      match hr : pipe.rect with
      | none => simpa [h1, hr] using ih
      | some rect => simpa [h1, hr, hcond] using ih

lemma apply_pipe_dangling (w : World) (now : ℤ) (dt : ℚ) (b : Ball)
    (hpipes : w.pipes ≠ []) (hb : b.in_pipe = true)
    (hdangling : ∀ pipe, get_pipe_by_id w b.pipe_id = some pipe → pipe.rect = none) :
    apply_pipe w now dt b = (false, { b with in_pipe := false, pipe_id := none }) := by
  rw [apply_pipe, if_neg hpipes]
  simp only [hb, if_true]
  match hfind : get_pipe_by_id w b.pipe_id with
  | none => rfl
  | some pipe =>
    have := hdangling pipe hfind
    simp [this]

/-- C9, counterexample: a ball in pipe transit whose referenced pipe no
longer resolves (here because the pipes collection has become empty) is
NOT cleared by the next advancement step — `apply_pipe` returns early
with the ball unchanged, `in_pipe` still `true` — contradicting the
claim that the transit state is silently cleared for every dangling
reference. -/
theorem dangling_pipe_counterexample :
    (apply_pipe emptyPipesWorld 0 (1/60) danglingBall).1 = false ∧
    (apply_pipe emptyPipesWorld 0 (1/60) danglingBall).2 = danglingBall ∧
    (apply_pipe emptyPipesWorld 0 (1/60) danglingBall).2.in_pipe = true := by
  with_unfolding_all decide

/-- C9 (amended): provided the pipes collection is non-empty, a ball in
pipe transit whose referenced pipe id no longer resolves to a live pipe
(lookup fails, or the stored pipe has no rect) has its transit state
silently cleared by the next advancement step — `in_pipe := false`,
`pipe_id := none`, every other ball field untouched, no error — and the
whole tick then behaves exactly as for the already-cleared ball,
resuming normal path advancement in the same tick.  (When the pipes list
is empty, `apply_pipe` instead returns early without clearing the stale
flags, though the ball still advances normally.) -/
theorem dangling_pipe_silent_exit
    (w : World) (now : ℤ) (dt : ℚ) (b : Ball)
    (hpipes : w.pipes ≠ []) (hb : b.in_pipe = true)
    (hdangling : ∀ pipe, get_pipe_by_id w b.pipe_id = some pipe → pipe.rect = none) :
    apply_pipe w now dt b = (false, { b with in_pipe := false, pipe_id := none }) ∧
    tick_ball w now dt b = tick_ball w now dt { b with in_pipe := false, pipe_id := none } := by
  refine ⟨apply_pipe_dangling w now dt b hpipes hb hdangling, ?_⟩
  rw [tick_ball, tick_ball]
  have h1 : apply_pipe w now dt { b with last_distance := b.distance } =
      (false, { b with last_distance := b.distance, in_pipe := false, pipe_id := none }) :=
    apply_pipe_dangling w now dt _ hpipes hb hdangling
  have h2 : apply_pipe w now dt
      { b with in_pipe := false, pipe_id := none, last_distance := b.distance } =
      (false, { b with last_distance := b.distance, in_pipe := false, pipe_id := none }) := by
    rw [apply_pipe, if_neg hpipes]
    exact pipe_entry_scan_self w _ rfl _
  simp only [h1, h2]

/-- Witness for the amended pipe-skip theorem: the crossing ball enters
transit with `used_pipes` unchanged, and a transit completing this tick
records the pipe id and lands at distance at least 600. -/
theorem pipe_skip_scenario_witness :
    (apply_pipe skipWorld 0 (1/60) skipBall).2.in_pipe = true ∧
    (apply_pipe skipWorld 0 (1/60) skipBall).2.used_pipes = skipBall.used_pipes ∧
    (apply_pipe skipWorld 0 (1/60) exitBall).2.used_pipes =
      insert skipPipe.id exitBall.used_pipes ∧
    (600:ℚ) ≤ (apply_pipe skipWorld 0 (1/60) exitBall).2.distance := by
  have h := pipe_skip_scenario skipBall rfl (by decide) (by decide)
    ⟨by decide, by decide⟩ 0 (1/60)
  have h2 := h.2 exitBall rfl rfl (by with_unfolding_all decide)
  exact ⟨h.1.2.1, h.1.2.2.2.1, h2.1, h2.2.1⟩

/-- Witness for the amended dangling-pipe theorem: with one live pipe
(id 7) and a ball referencing the removed pipe id 99, the next
advancement clears the transit flags and the tick equals the tick of the
cleared ball. -/
theorem dangling_pipe_silent_exit_witness :
    apply_pipe skipWorld 0 (1/60) danglingBall99 =
      (false, { danglingBall99 with in_pipe := false, pipe_id := none }) ∧
    tick_ball skipWorld 0 (1/60) danglingBall99 =
      tick_ball skipWorld 0 (1/60) { danglingBall99 with in_pipe := false, pipe_id := none } := by
  refine dangling_pipe_silent_exit skipWorld 0 (1/60) danglingBall99 (by simp [skipWorld])
    rfl ?_
  intro pipe hp
  rw [show get_pipe_by_id skipWorld danglingBall99.pipe_id = none from rfl] at hp
  cases hp

/-- C7: carry-forward.  `reset_round` with `carry_items = true` to a
higher level preserves every placed pipe, turbo lane and portal exactly
(ids, geometry, rects), preserves every block's id, cost, geometry,
durations and upgrade count while freshly resetting its active timers
(active from `now`, cooldown cleared), and resets score and coins to
zero and the ball collection to empty. -/
theorem carry_forward_preserves_items
    (w : World) (lvl : ℕ) (now : ℤ)
    (hlvl : w.current_level < lvl) (hmax : lvl ≤ w.max_level) :
    (reset_round w (some lvl) true now).pipes = w.pipes ∧
    (reset_round w (some lvl) true now).turbo_pipes = w.turbo_pipes ∧
    (reset_round w (some lvl) true now).portals = w.portals ∧
    (reset_round w (some lvl) true now).blocks.map
        (fun bl => (bl.id, bl.cost, bl.progress, bl.pos, bl.radius, bl.active_duration,
          bl.cooldown_duration, bl.upgrade_count)) =
      w.blocks.map
        (fun bl => (bl.id, bl.cost, bl.progress, bl.pos, bl.radius, bl.active_duration,
          bl.cooldown_duration, bl.upgrade_count)) ∧
    (∀ bl ∈ (reset_round w (some lvl) true now).blocks,
      bl.is_active = true ∧ bl.spawn_ms = now ∧
        bl.active_until_ms = now + pyInt (bl.active_duration * 1000) ∧
        bl.cooldown_start_ms = 0 ∧ bl.cooldown_end_ms = 0) ∧
    (reset_round w (some lvl) true now).score = 0 ∧
    (reset_round w (some lvl) true now).coins = 0 ∧
    (reset_round w (some lvl) true now).balls = [] ∧
    (reset_round w (some lvl) true now).current_level = lvl := by
  have hcur : max 1 (min lvl w.max_level) = lvl := by omega
  rw [reset_round]
  dsimp only
  rw [hcur]
  simp only [eq_self_iff_true, if_true]
  split_ifs
  all_goals
    refine ⟨rfl, rfl, rfl, ?_, ?_, rfl, rfl, rfl, rfl⟩
  any_goals
    intro bl hbl
    rw [clone_blocks] at hbl
    obtain ⟨block, hmem, rfl⟩ := List.mem_map.mp hbl
    exact ⟨rfl, rfl, rfl, rfl, rfl⟩
  all_goals
    rw [clone_blocks, List.map_map]
    rfl

/-- Witness for the carry-forward theorem at a concrete world: one block,
one pipe, one portal and one turbo lane placed on level 2, carried to
level 3. -/
theorem carry_forward_preserves_items_witness :
    (reset_round
        { current_level := 2, score := 55, coins := 44, balls := [crossBall]
          blocks := [crossBlockAt (105/1000)], pipes := [crossPipe]
          portals := [crossPortalE], turbo_pipes := [turboZone] }
        (some 3) true 1234).pipes = [crossPipe] ∧
    (reset_round
        { current_level := 2, score := 55, coins := 44, balls := [crossBall]
          blocks := [crossBlockAt (105/1000)], pipes := [crossPipe]
          portals := [crossPortalE], turbo_pipes := [turboZone] }
        (some 3) true 1234).score = 0 ∧
    (reset_round
        { current_level := 2, score := 55, coins := 44, balls := [crossBall]
          blocks := [crossBlockAt (105/1000)], pipes := [crossPipe]
          portals := [crossPortalE], turbo_pipes := [turboZone] }
        (some 3) true 1234).balls = [] := by
  have h := carry_forward_preserves_items
    { current_level := 2, score := 55, coins := 44, balls := [crossBall]
      blocks := [crossBlockAt (105/1000)], pipes := [crossPipe]
      portals := [crossPortalE], turbo_pipes := [turboZone] }
    3 1234 (by decide) (by decide)
  exact ⟨h.1, h.2.2.2.2.2.1, h.2.2.2.2.2.2.2.1⟩

lemma speed_boost_multiplier_nonneg (w : World) (now : ℤ) :
    0 ≤ speed_boost_multiplier w now := by
  rw [speed_boost_multiplier]
  split_ifs
  · norm_num [SPEED_BOOST_FACTOR]
  · norm_num

lemma pipe_entry_scan_distance_mono (w : World) (b : Ball) :
    ∀ l : List PipeItem, b.distance ≤ (pipe_entry_scan w b l).2.distance := by
  intro l
  induction l with
  | nil => exact le_refl _
  | cons pipe rest ih =>
    rw [pipe_entry_scan]
    by_cases h1 : pipe.id ∈ b.used_pipes
    · simpa [h1] using ih
    · match hr : pipe.rect with
      | none => simpa [h1, hr] using ih
      | some rect =>
        simp only [h1, if_false, hr]
        split_ifs <;> first | exact le_max_left _ _ | exact ih

lemma pipe_entry_scan_false (w : World) (b : Ball) :
    ∀ l : List PipeItem, (pipe_entry_scan w b l).1 = false → (pipe_entry_scan w b l).2 = b := by
  intro l
  induction l with
  | nil => intro _; rfl
  | cons pipe rest ih =>
    rw [pipe_entry_scan]
    by_cases h1 : pipe.id ∈ b.used_pipes
    · simpa [h1] using ih
    · match hr : pipe.rect with
      | none => simpa [h1, hr] using ih
      | some rect =>
        simp only [h1, if_false, hr]
        by_cases h2 : b.last_distance < progress_to_distance w pipe.entry_progress ∧
            progress_to_distance w pipe.entry_progress ≤ b.distance
        · simp [h2]
        · simpa [h2] using ih

lemma apply_pipe_distance_mono (w : World) (now : ℤ) (dt : ℚ) (b : Ball) :
    b.distance ≤ (apply_pipe w now dt b).2.distance := by
  rw [apply_pipe]
  split_ifs with h1 h2
  · exact le_refl _
  · match hfind : get_pipe_by_id w b.pipe_id with
    | none => exact le_refl _
    | some pipe =>
      dsimp only
      match hr : pipe.rect with
      | none => exact le_refl _
      | some rect =>
        dsimp only
        split_ifs <;> first | exact le_max_left _ _ | exact le_refl _
  · exact pipe_entry_scan_distance_mono w b _

lemma apply_pipe_false_fields (w : World) (now : ℤ) (dt : ℚ) (b : Ball)
    (h : (apply_pipe w now dt b).1 = false) :
    (apply_pipe w now dt b).2.distance = b.distance ∧
      (apply_pipe w now dt b).2.speed = b.speed ∧
      (apply_pipe w now dt b).2.last_distance = b.last_distance := by
  rw [apply_pipe] at h ⊢
  split_ifs at h ⊢ with h1 h2
  · exact ⟨rfl, rfl, rfl⟩
  · match hfind : get_pipe_by_id w b.pipe_id with
    | none => exact ⟨rfl, rfl, rfl⟩
    | some pipe =>
      dsimp only at h ⊢
      match hr : pipe.rect with
      | none => exact ⟨rfl, rfl, rfl⟩
      | some rect =>
        dsimp only at h ⊢
        split_ifs at h ⊢ <;> simp_all
  · rw [pipe_entry_scan_false w b _ h]
    exact ⟨rfl, rfl, rfl⟩

lemma block_fold_fields (w : World) (bs : List BlockItem) :
    ∀ b : Ball,
      (bs.foldl (block_step w) b).distance = b.distance ∧
      (bs.foldl (block_step w) b).last_distance = b.last_distance ∧
      (0 ≤ b.speed → 0 ≤ (bs.foldl (block_step w) b).speed) ∧
      (bs.foldl (block_step w) b).coin_value = b.coin_value ∧
      b.bonus_score ≤ (bs.foldl (block_step w) b).bonus_score := by
  induction bs with
  | nil => exact fun b => ⟨rfl, rfl, fun h => h, rfl, le_refl _⟩
  | cons block rest ih =>
    intro b
    rw [List.foldl_cons]
    simp only [block_step]
    split_ifs with h1 h2 h3
    · exact ih b
    · exact ih b
    · obtain ⟨hd, hl, hs, hc, hb⟩ := ih
        { b with
          speed := max (b.speed * BLOCK_SLOW_FACTOR) 0
          block_hits := insert block.id b.block_hits
          bonus_score := b.bonus_score + BLOCK_BONUS }
      refine ⟨hd, hl, fun _ => hs (le_max_right _ _), hc, le_trans ?_ hb⟩
      exact le_add_of_nonneg_right (by norm_num [BLOCK_BONUS])
    · exact ih b

lemma apply_block_effects_fields (w : World) (b : Ball) :
    (apply_block_effects w b).distance = b.distance ∧
      (apply_block_effects w b).last_distance = b.last_distance ∧
      (0 ≤ b.speed → 0 ≤ (apply_block_effects w b).speed) ∧
      (apply_block_effects w b).coin_value = b.coin_value ∧
      b.bonus_score ≤ (apply_block_effects w b).bonus_score := by
  rw [apply_block_effects]
  exact block_fold_fields w w.blocks b

lemma turbo_fold_invariant (w : World) (zs : List TurboPipeItem) :
    ∀ (zm : ℚ) (b : Ball), 1 ≤ zm →
      1 ≤ (zs.foldl (turbo_step w) (zm, b)).1 ∧
      (zs.foldl (turbo_step w) (zm, b)).2.distance = b.distance ∧
      (zs.foldl (turbo_step w) (zm, b)).2.last_distance = b.last_distance ∧
      (zs.foldl (turbo_step w) (zm, b)).2.coin_value = b.coin_value ∧
      (zs.foldl (turbo_step w) (zm, b)).2.bonus_score = b.bonus_score ∧
      (0 ≤ b.speed → 0 ≤ (zs.foldl (turbo_step w) (zm, b)).2.speed) := by
  induction zs with
  | nil => exact fun zm b hzm => ⟨hzm, rfl, rfl, rfl, rfl, fun h => h⟩
  | cons z rest ih =>
    intro zm b hzm
    rw [List.foldl_cons, turbo_step]
    dsimp only
    split_ifs with h1 h2
    · obtain ⟨ha, hb2, hl, hc, hd, he⟩ := ih (max zm TURBO_PIPE_MULTIPLIER)
        { b with
          score_value := b.score_value * 2
          speed := min (b.speed * TURBO_PIPE_MULTIPLIER)
            (BALL_MAX_SPEED * TURBO_PIPE_MULTIPLIER)
          turbo_hits := insert z.id b.turbo_hits }
        (le_max_of_le_left hzm)
      refine ⟨ha, hb2, hl, hc, hd, fun hsp => he ?_⟩
      have hm : (0:ℚ) ≤ TURBO_PIPE_MULTIPLIER := by norm_num [TURBO_PIPE_MULTIPLIER]
      have hbm : (0:ℚ) ≤ BALL_MAX_SPEED := by norm_num [BALL_MAX_SPEED]
      exact le_min (mul_nonneg hsp hm) (mul_nonneg hbm hm)
    · exact ih (max zm TURBO_PIPE_MULTIPLIER) b (le_max_of_le_left hzm)
    · exact ih zm b hzm

lemma apply_turbo_effects_fields (w : World) (dt mult : ℚ) (b : Ball)
    (hdt : 0 ≤ dt) (hmult : 0 ≤ mult) (hsp : 0 ≤ b.speed) :
    b.distance ≤ (apply_turbo_effects w dt mult b).distance ∧
      (apply_turbo_effects w dt mult b).last_distance = b.last_distance ∧
      (apply_turbo_effects w dt mult b).coin_value = b.coin_value ∧
      (apply_turbo_effects w dt mult b).bonus_score = b.bonus_score ∧
      0 ≤ (apply_turbo_effects w dt mult b).speed := by
  obtain ⟨ha, hd2, hl, hc, hb2, hs⟩ :=
    turbo_fold_invariant w w.turbo_pipes 1 b (le_refl 1)
  rw [apply_turbo_effects]
  split_ifs with h1
  · refine ⟨?_, hl, hc, hb2, hs hsp⟩
    dsimp only
    rw [hd2]
    have hpos : 0 ≤ (w.turbo_pipes.foldl (turbo_step w) (1, b)).2.speed * mult * dt *
        ((w.turbo_pipes.foldl (turbo_step w) (1, b)).1 - 1) := by
      have h0 : 0 ≤ (w.turbo_pipes.foldl (turbo_step w) (1, b)).1 - 1 := by linarith
      exact mul_nonneg (mul_nonneg (mul_nonneg (hs hsp) hmult) hdt) h0
    linarith
  · refine ⟨le_of_eq hd2.symm, hl, hc, hb2, ?_⟩
    exact le_min (hs hsp) (by norm_num [BALL_MAX_SPEED])

lemma apply_portal_effects_not_fired (w : World) (b : Ball)
    (h : portal_teleport_fires w b = false) : apply_portal_effects w b = b := by
  rw [apply_portal_effects]
  rw [portal_teleport_fires] at h
  match hp : w.portals with
  | [] => rfl
  | [p0] => rfl
  | p0 :: p1 :: rest =>
    rw [hp] at h
    dsimp only at h ⊢
    by_cases hs : w.portal_state ≠ PortalState.active
    · rw [if_pos hs]
    · rw [if_neg hs] at h ⊢
      by_cases hip : b.in_pipe = true
      · rw [if_pos hip]
      · rw [if_neg hip] at h ⊢
        exact if_pos (of_decide_eq_false h)

/-- C2: distance monotonicity.  For any ball and any tick of the
ball-advancement loop, if no portal teleport fired on the ball during the
tick, the ball's distance at the end of the tick is at least its distance
at the start (given a non-negative `dt` and the ball's speed
non-negative, which the engine maintains). -/
theorem distance_monotone_tick
    (w : World) (now : ℤ) (dt : ℚ) (b : Ball)
    (hdt : 0 ≤ dt) (hsp : 0 ≤ b.speed)
    (hportal : (tick_ball w now dt b).portal_fired = false) :
    b.distance ≤ (tick_ball w now dt b).ball.distance := by
  have hmult := speed_boost_multiplier_nonneg w now
  rw [tick_ball] at hportal ⊢
  dsimp only at hportal ⊢
  by_cases hf : (apply_pipe w now dt { b with last_distance := b.distance }).1 = true
  · rw [if_pos hf] at hportal ⊢
    exact apply_pipe_distance_mono w now dt { b with last_distance := b.distance }
  · rw [if_neg hf] at hportal ⊢
    obtain ⟨hfd, hfs, hfl⟩ := apply_pipe_false_fields w now dt
      { b with last_distance := b.distance } (by simpa using hf)
    set b2 := (apply_pipe w now dt { b with last_distance := b.distance }).2 with hb2
    have hsp2 : 0 ≤ b2.speed := by rw [hfs]; exact hsp
    have hd2 : b2.distance = b.distance := hfd
    have hsp3 : 0 ≤ min (b2.speed + BALL_ACCEL * speed_boost_multiplier w now * dt)
        BALL_MAX_SPEED := by
      refine le_min (add_nonneg hsp2 ?_) (by norm_num [BALL_MAX_SPEED])
      exact mul_nonneg (mul_nonneg (by norm_num [BALL_ACCEL]) hmult) hdt
    set b4 : Ball :=
      { b2 with
        speed := min (b2.speed + BALL_ACCEL * speed_boost_multiplier w now * dt)
          BALL_MAX_SPEED
        distance := b2.distance +
          min (b2.speed + BALL_ACCEL * speed_boost_multiplier w now * dt) BALL_MAX_SPEED *
            speed_boost_multiplier w now * dt } with hb4
    have hd4 : b.distance ≤ b4.distance := by
      rw [hb4]
      dsimp only
      rw [hd2]
      have : 0 ≤ min (b2.speed + BALL_ACCEL * speed_boost_multiplier w now * dt)
          BALL_MAX_SPEED * speed_boost_multiplier w now * dt :=
        mul_nonneg (mul_nonneg hsp3 hmult) hdt
      linarith
    have hsp4 : 0 ≤ b4.speed := hsp3
    by_cases hip : b4.in_pipe = true
    · rw [if_pos hip] at hportal ⊢
      exact le_trans hd4 (apply_pipe_distance_mono w now dt b4)
    · rw [if_neg hip] at hportal ⊢
      obtain ⟨ht1, ht2, ht3, ht4, ht5⟩ :=
        apply_turbo_effects_fields w dt (speed_boost_multiplier w now) b4 hdt hmult hsp4
      obtain ⟨hB1, hB2, hB3, hB4, hB5⟩ := apply_block_effects_fields w
        (apply_turbo_effects w dt (speed_boost_multiplier w now) b4)
      dsimp only at hportal ⊢
      rw [apply_portal_effects_not_fired w _ hportal]
      refine le_trans hd4 (le_trans ht1 (le_trans (le_of_eq hB1.symm) ?_))
      exact apply_pipe_distance_mono _ now dt _

/-- Witness for the distance-monotonicity theorem: one tick on an empty
world does not decrease the crossing ball's distance. -/
theorem distance_monotone_tick_witness :
    (tick_ball emptyPipesWorld 0 1 crossBall).portal_fired = false ∧
    crossBall.distance ≤ (tick_ball emptyPipesWorld 0 1 crossBall).ball.distance := by
  have hp : (tick_ball emptyPipesWorld 0 1 crossBall).portal_fired = false := by
    with_unfolding_all decide
  exact ⟨hp, distance_monotone_tick emptyPipesWorld 0 1 crossBall (by norm_num)
    (by norm_num [crossBall]) hp⟩

/-! Frame lemmas: which parts of the world each operation can touch,
used for the victory-priority and coin-safety claims. -/

def BallsOK (l : List Ball) : Prop := ∀ b ∈ l, 0 ≤ b.coin_value ∧ 0 ≤ b.bonus_score

lemma foldl_inv {β γ : Type} (P : β → Prop) (f : β → γ → β) :
    ∀ l : List γ, (∀ x a, a ∈ l → P x → P (f x a)) → ∀ x, P x → P (List.foldl f x l) := by
  intro l
  induction l with
  | nil => intro _ x hx; exact hx
  | cons a rest ih =>
    intro hf x hx
    rw [List.foldl_cons]
    exact ih (fun y c hc hy => hf y c (List.mem_cons_of_mem a hc) hy) (f x a)
      (hf x a (List.mem_cons_self a rest) hx)

lemma randintSeed_nonneg (lo hi : ℤ) (seed : ℕ) (h : 0 ≤ lo) :
    0 ≤ randintSeed lo hi seed := by
  rw [randintSeed]
  have : (0:ℤ) ≤ Int.ofNat (seed % (max 1 (hi - lo + 1)).toNat) := Int.ofNat_nonneg _
  linarith

lemma randintSeed_ge (lo hi : ℤ) (seed : ℕ) : lo ≤ randintSeed lo hi seed := by
  rw [randintSeed]
  have : (0:ℤ) ≤ Int.ofNat (seed % (max 1 (hi - lo + 1)).toNat) := Int.ofNat_nonneg _
  linarith

lemma check_round_victory_frame (w : World) :
    (check_round_victory w).coins = w.coins ∧ (check_round_victory w).balls = w.balls ∧
      (w.round_result = some RoundResult.success →
        (check_round_victory w).round_result = some RoundResult.success) := by
  rw [check_round_victory]
  dsimp only
  split_ifs with h1 h2 h3
  · exact ⟨rfl, rfl, fun h => h⟩
  · exact ⟨rfl, rfl, fun h => h⟩
  · exact ⟨rfl, rfl, fun _ => rfl⟩
  · exact ⟨rfl, rfl, fun h => h⟩

lemma remaining_time_frame (w : World) (now : ℤ) :
    (remaining_time w now).1.coins = w.coins ∧ (remaining_time w now).1.balls = w.balls ∧
      (w.round_result = some RoundResult.success →
        (remaining_time w now).1.round_result = some RoundResult.success) := by
  rw [remaining_time]
  match hs : w.round_start_ms with
  | none => exact ⟨rfl, rfl, fun h => h⟩
  | some start =>
    dsimp only
    split_ifs with h1 h2
    · exact ⟨by trivial, by trivial, fun h => absurd h h2⟩
    · exact ⟨by trivial, by trivial, fun h => h⟩
    · exact ⟨by trivial, by trivial, fun h => h⟩

lemma try_purchase_pipe_frame (w : World) :
    (try_purchase_pipe w).balls = w.balls ∧
      (try_purchase_pipe w).round_result = w.round_result ∧
      (0 ≤ w.coins → 0 ≤ (try_purchase_pipe w).coins) := by
  rw [try_purchase_pipe]
  split_ifs with h1
  · exact ⟨rfl, rfl, fun h => h⟩
  · by_cases h2 : w.coins < next_pipe_cost w
    · refine ⟨by simp [h2], by simp [h2], fun h => ?_⟩
      simp only [h2, if_true]
      exact h
    · refine ⟨by simp [h2], by simp [h2], fun h => ?_⟩
      simp only [h2, if_false]
      linarith [not_lt.mp h2]

lemma try_purchase_block_frame (w : World) :
    (try_purchase_block w).balls = w.balls ∧
      (try_purchase_block w).round_result = w.round_result ∧
      (0 ≤ w.coins → 0 ≤ (try_purchase_block w).coins) := by
  rw [try_purchase_block]
  split_ifs with h1 h2
  · exact ⟨rfl, rfl, fun h => h⟩
  · exact ⟨rfl, rfl, fun h => h⟩
  · by_cases h3 : w.coins < next_block_cost w
    · refine ⟨by simp [h3], by simp [h3], fun h => ?_⟩
      simp only [h3, if_true]
      exact h
    · refine ⟨by simp [h3], by simp [h3], fun h => ?_⟩
      simp only [h3, if_false]
      linarith [not_lt.mp h3]

lemma try_purchase_turbo_pipe_frame (w : World) :
    (try_purchase_turbo_pipe w).balls = w.balls ∧
      (try_purchase_turbo_pipe w).round_result = w.round_result ∧
      (0 ≤ w.coins → 0 ≤ (try_purchase_turbo_pipe w).coins) := by
  rw [try_purchase_turbo_pipe]
  split_ifs with h1 h2
  · exact ⟨rfl, rfl, fun h => h⟩
  · exact ⟨rfl, rfl, fun h => h⟩
  · by_cases h3 : w.coins < next_turbo_cost w
    · refine ⟨by simp [h3], by simp [h3], fun h => ?_⟩
      simp only [h3, if_true]
      exact h
    · refine ⟨by simp [h3], by simp [h3], fun h => ?_⟩
      simp only [h3, if_false]
      linarith [not_lt.mp h3]

lemma try_purchase_portal_frame (w : World) :
    (try_purchase_portal w).balls = w.balls ∧
      (try_purchase_portal w).round_result = w.round_result ∧
      (0 ≤ w.coins → 0 ≤ (try_purchase_portal w).coins) := by
  rw [try_purchase_portal]
  split_ifs with h1 h2 h3
  · exact ⟨rfl, rfl, fun h => h⟩
  · exact ⟨rfl, rfl, fun h => h⟩
  · exact ⟨rfl, rfl, fun h => h⟩
  · by_cases h4 : w.coins < next_portal_cost w
    · refine ⟨by simp [h4], by simp [h4], fun h => ?_⟩
      simp only [h4, if_true]
      exact h
    · refine ⟨by simp [h4], by simp [h4], fun h => ?_⟩
      simp only [h4, if_false]
      linarith [not_lt.mp h4]

lemma try_purchase_storm_frame (w : World) :
    (try_purchase_storm w).coins = w.coins ∧ (try_purchase_storm w).balls = w.balls ∧
      (try_purchase_storm w).round_result = w.round_result := by
  rw [try_purchase_storm]
  split_ifs <;> exact ⟨rfl, rfl, rfl⟩

lemma try_activate_bouncepad_frame (w : World) :
    (try_activate_bouncepad w).coins = w.coins ∧ (try_activate_bouncepad w).balls = w.balls ∧
      (try_activate_bouncepad w).round_result = w.round_result := by
  rw [try_activate_bouncepad]
  split_ifs <;> exact ⟨rfl, rfl, rfl⟩

lemma try_activate_speed_boost_frame (w : World) (now : ℤ) :
    (try_activate_speed_boost w now).coins = w.coins ∧
      (try_activate_speed_boost w now).balls = w.balls ∧
      (try_activate_speed_boost w now).round_result = w.round_result := by
  rw [try_activate_speed_boost]
  split_ifs <;> exact ⟨rfl, rfl, rfl⟩

lemma activate_portals_frame (w : World) (now : ℤ) :
    (activate_portals w now).coins = w.coins ∧ (activate_portals w now).balls = w.balls ∧
      (activate_portals w now).round_result = w.round_result := by
  rw [activate_portals]
  split_ifs <;> exact ⟨rfl, rfl, rfl⟩

lemma update_portals_frame (w : World) (now : ℤ) :
    (update_portals w now).coins = w.coins ∧ (update_portals w now).balls = w.balls ∧
      (update_portals w now).round_result = w.round_result := by
  rw [update_portals]
  by_cases h1 : w.portals.length < 2
  · simp only [h1, if_true]
    exact ⟨by trivial, by trivial, by trivial⟩
  · simp only [h1, if_false]
    match hps : w.portal_state with
    | PortalState.inactive => exact activate_portals_frame w now
    | PortalState.active =>
      dsimp only
      split_ifs <;> exact ⟨rfl, rfl, rfl⟩
    | PortalState.cooldown =>
      dsimp only
      split_ifs with h2
      · exact activate_portals_frame w now
      · exact ⟨rfl, rfl, rfl⟩

lemma update_blocks_frame (w : World) (now : ℤ) :
    (update_blocks w now).coins = w.coins ∧ (update_blocks w now).balls = w.balls ∧
      (update_blocks w now).round_result = w.round_result :=
⟨rfl, rfl, rfl⟩

lemma update_bouncer_supply_frame (w : World) (drops : List TrackPowerup) :
    (update_bouncer_supply w drops).coins = w.coins ∧
      (update_bouncer_supply w drops).balls = w.balls ∧
      (update_bouncer_supply w drops).round_result = w.round_result := by
  rw [update_bouncer_supply]
  split_ifs <;> exact ⟨rfl, rfl, rfl⟩

lemma handle_tool_removed_frame (w : World) (drops : List TrackPowerup) :
    (handle_tool_removed w drops).coins = w.coins ∧
      (handle_tool_removed w drops).balls = w.balls ∧
      (handle_tool_removed w drops).round_result = w.round_result := by
  rw [handle_tool_removed]
  split_ifs with h1
  · exact ⟨rfl, rfl, rfl⟩
  · match ht : pending_bouncer_target w with
    | none => exact ⟨rfl, rfl, rfl⟩
    | some target =>
      dsimp only
      exact update_bouncer_supply_frame _ drops

lemma remove_pipe_at_frame (w : World) (pos : ℚ × ℚ) :
    (remove_pipe_at w pos).2.coins = w.coins ∧ (remove_pipe_at w pos).2.balls = w.balls ∧
      (remove_pipe_at w pos).2.round_result = w.round_result := by
  rw [remove_pipe_at]
  split_ifs with h1
  · exact ⟨rfl, rfl, rfl⟩
  · match hf : w.pipes.reverse.find? _ with
    | none => exact ⟨rfl, rfl, rfl⟩
    | some pipe => exact ⟨rfl, rfl, rfl⟩

lemma remove_block_at_frame (w : World) (pos : ℚ × ℚ) :
    (remove_block_at w pos).2.coins = w.coins ∧ (remove_block_at w pos).2.balls = w.balls ∧
      (remove_block_at w pos).2.round_result = w.round_result := by
  rw [remove_block_at]
  split_ifs with h1
  · exact ⟨rfl, rfl, rfl⟩
  · match hf : w.blocks.reverse.find? _ with
    | none => exact ⟨rfl, rfl, rfl⟩
    | some block => exact ⟨rfl, rfl, rfl⟩

lemma remove_turbo_pipe_at_frame (w : World) (pos : ℚ × ℚ) :
    (remove_turbo_pipe_at w pos).2.coins = w.coins ∧
      (remove_turbo_pipe_at w pos).2.balls = w.balls ∧
      (remove_turbo_pipe_at w pos).2.round_result = w.round_result := by
  rw [remove_turbo_pipe_at]
  split_ifs with h1
  · exact ⟨rfl, rfl, rfl⟩
  · match hf : w.turbo_pipes.reverse.find? _ with
    | none => exact ⟨rfl, rfl, rfl⟩
    | some turbo => exact ⟨rfl, rfl, rfl⟩

lemma remove_bouncer_at_frame (w : World) (pos : ℚ × ℚ) :
    (remove_bouncer_at w pos).2.coins = w.coins ∧
      (remove_bouncer_at w pos).2.balls = w.balls ∧
      (remove_bouncer_at w pos).2.round_result = w.round_result := by
  rw [remove_bouncer_at]
  split_ifs with h1
  · exact ⟨rfl, rfl, rfl⟩
  · match hf : w.bouncers.reverse.find? _ with
    | none => exact ⟨rfl, rfl, rfl⟩
    | some b => exact ⟨rfl, rfl, rfl⟩

lemma remove_storm_at_frame (w : World) (pos : ℚ × ℚ) :
    (remove_storm_at w pos).2.coins = w.coins ∧
      (remove_storm_at w pos).2.balls = w.balls ∧
      (remove_storm_at w pos).2.round_result = w.round_result := by
  rw [remove_storm_at]
  split_ifs with h1
  · exact ⟨rfl, rfl, rfl⟩
  · match hf : w.storm_emitters.reverse.find? _ with
    | none => exact ⟨rfl, rfl, rfl⟩
    | some st => exact ⟨rfl, rfl, rfl⟩

lemma remove_portal_at_frame (w : World) (pos : ℚ × ℚ) :
    (remove_portal_at w pos).2.coins = w.coins ∧
      (remove_portal_at w pos).2.balls = w.balls ∧
      (remove_portal_at w pos).2.round_result = w.round_result := by
  rw [remove_portal_at]
  split_ifs with h1
  · exact ⟨rfl, rfl, rfl⟩
  · match hf : w.portals.reverse.find? _ with
    | none => exact ⟨rfl, rfl, rfl⟩
    | some p => exact ⟨rfl, rfl, rfl⟩

lemma try_remove_item_at_frame (w : World) (pos : ℚ × ℚ) (drops : List TrackPowerup) :
    (try_remove_item_at w pos drops).2.coins = w.coins ∧
      (try_remove_item_at w pos drops).2.balls = w.balls ∧
      (try_remove_item_at w pos drops).2.round_result = w.round_result := by
  obtain ⟨hc1, hb1, hr1⟩ := handle_tool_removed_frame (remove_pipe_at w pos).2 drops
  obtain ⟨hc2, hb2, hr2⟩ := remove_pipe_at_frame w pos
  obtain ⟨hc3, hb3, hr3⟩ := handle_tool_removed_frame (remove_block_at w pos).2 drops
  obtain ⟨hc4, hb4, hr4⟩ := remove_block_at_frame w pos
  obtain ⟨hc5, hb5, hr5⟩ := handle_tool_removed_frame (remove_turbo_pipe_at w pos).2 drops
  obtain ⟨hc6, hb6, hr6⟩ := remove_turbo_pipe_at_frame w pos
  obtain ⟨hc7, hb7, hr7⟩ := remove_bouncer_at_frame w pos
  obtain ⟨hc8, hb8, hr8⟩ := handle_tool_removed_frame (remove_storm_at w pos).2 drops
  obtain ⟨hc9, hb9, hr9⟩ := remove_storm_at_frame w pos
  obtain ⟨hc10, hb10, hr10⟩ := handle_tool_removed_frame (remove_portal_at w pos).2 drops
  obtain ⟨hc11, hb11, hr11⟩ := remove_portal_at_frame w pos
  simp only [try_remove_item_at]
  split_ifs <;> simp_all

lemma handle_right_click_frame (w : World) (pos : ℚ × ℚ) (drops : List TrackPowerup) :
    (handle_right_click w pos drops).balls = w.balls ∧
      (handle_right_click w pos drops).round_result = w.round_result ∧
      (0 ≤ w.coins → 0 ≤ (handle_right_click w pos drops).coins) := by
  obtain ⟨hc, hb, hr⟩ := try_remove_item_at_frame w pos drops
  rw [handle_right_click]
  by_cases h1 : PASSIVE_UNLOCK_LEVEL ≤ w.current_level ∧ w.skill_selection_required = true
  case pos => rw [if_pos h1]; exact ⟨rfl, rfl, fun h => h⟩
  rw [if_neg h1]
  by_cases h2 : ¬(SHOP_WIDTH + 20 < pos.1 ∧ pos.1 < WIDTH - UTILITY_WIDTH - 20)
  case pos => rw [if_pos h2]; exact ⟨rfl, rfl, fun h => h⟩
  rw [if_neg h2]
  by_cases h3 : (try_remove_item_at w pos drops).1 = true
  · refine ⟨?_, ?_, fun h => ?_⟩
    · simp only [h3, if_true]
      exact hb
    · simp only [h3, if_true]
      exact hr
    · simp only [h3, if_true]
      rw [hc]
      have hbonus : (0:ℤ) ≤ REMOVAL_BONUS := by norm_num [REMOVAL_BONUS]
      linarith
  · refine ⟨?_, ?_, fun h => ?_⟩
    · simp only [h3, if_false]
      exact hb
    · simp only [h3, if_false]
      exact hr
    · simp only [h3, if_false]
      exact hc ▸ h

lemma collect_powerup_frame (w : World) (p : TrackPowerup) :
    (collect_powerup w p).coins = w.coins ∧ (collect_powerup w p).balls = w.balls ∧
      (collect_powerup w p).round_result = w.round_result ∧
      (collect_powerup w p).track_total = w.track_total := by
  rw [collect_powerup]
  cases p.kind <;> exact ⟨rfl, rfl, rfl, rfl⟩

lemma check_powerup_collision_frame (w : World) (b : Ball) :
    (check_powerup_collision w b).coins = w.coins ∧
      (check_powerup_collision w b).balls = w.balls ∧
      (check_powerup_collision w b).round_result = w.round_result ∧
      (check_powerup_collision w b).track_total = w.track_total := by
  rw [check_powerup_collision]
  split_ifs with h1
  · exact ⟨rfl, rfl, rfl, rfl⟩
  · refine foldl_inv
      (fun x => x.coins = w.coins ∧ x.balls = w.balls ∧ x.round_result = w.round_result ∧
        x.track_total = w.track_total) collect_powerup _ (fun x p _ hx => ?_) w
      ⟨rfl, rfl, rfl, rfl⟩
    obtain ⟨h1', h2', h3', h4'⟩ := collect_powerup_frame x p
    exact ⟨h1'.trans hx.1, h2'.trans hx.2.1, h3'.trans hx.2.2.1, h4'.trans hx.2.2.2⟩

lemma process_storm_pass_frame (w : World) (now : ℤ) (b : Ball) :
    (process_storm_pass w now b).coins = w.coins ∧
      (process_storm_pass w now b).balls = w.balls ∧
      (process_storm_pass w now b).round_result = w.round_result ∧
      (process_storm_pass w now b).track_total = w.track_total := by
  rw [process_storm_pass]
  split_ifs <;> exact ⟨rfl, rfl, rfl, rfl⟩

lemma tick_ball_world_frame (w : World) (now : ℤ) (dt : ℚ) (b : Ball) :
    (tick_ball w now dt b).world.coins = w.coins ∧
      (tick_ball w now dt b).world.balls = w.balls ∧
      (tick_ball w now dt b).world.round_result = w.round_result ∧
      (tick_ball w now dt b).world.track_total = w.track_total := by
  rw [tick_ball]
  dsimp only
  split_ifs
  · exact ⟨rfl, rfl, rfl, rfl⟩
  · exact ⟨rfl, rfl, rfl, rfl⟩
  · obtain ⟨hp1, hp2, hp3, hp4⟩ := check_powerup_collision_frame w _
    obtain ⟨hs1, hs2, hs3, hs4⟩ := process_storm_pass_frame (check_powerup_collision w _) now _
    exact ⟨hs1.trans hp1, hs2.trans hp2, hs3.trans hp3, hs4.trans hp4⟩

lemma try_accelerate_portal_cooldown_frame (w : World) (now : ℤ) (pos : ℚ × ℚ) :
    (try_accelerate_portal_cooldown w now pos).2.coins = w.coins ∧
      (try_accelerate_portal_cooldown w now pos).2.balls = w.balls ∧
      (try_accelerate_portal_cooldown w now pos).2.round_result = w.round_result := by
  rw [try_accelerate_portal_cooldown]
  split_ifs with h1
  · exact ⟨rfl, rfl, rfl⟩
  · match hscan : portal_infusion_scan pos w.portals with
    | none => exact ⟨rfl, rfl, rfl⟩
    | some portal =>
      dsimp only
      split_ifs with h2
      · exact activate_portals_frame w now
      · exact ⟨rfl, rfl, rfl⟩

lemma place_pipe_frame (w : World) (rect : Rect) (a b c d e : ℚ) :
    (place_pipe w rect a b c d e).coins = w.coins ∧
      (place_pipe w rect a b c d e).balls = w.balls ∧
      (place_pipe w rect a b c d e).round_result = w.round_result := by
  rw [place_pipe]
  match hp : w.placing_pipe with
  | none => exact ⟨rfl, rfl, rfl⟩
  | some pipe => exact ⟨rfl, rfl, rfl⟩

lemma place_block_frame (w : World) (now : ℤ) (x y progress : ℚ) :
    (place_block w now x y progress).coins = w.coins ∧
      (place_block w now x y progress).balls = w.balls ∧
      (place_block w now x y progress).round_result = w.round_result := by
  rw [place_block]
  match hp : w.placing_block with
  | none => exact ⟨rfl, rfl, rfl⟩
  | some block =>
    dsimp only
    split_ifs <;> exact ⟨rfl, rfl, rfl⟩

lemma place_turbo_pipe_frame (w : World) (sp ep : ℚ) (positions : List (ℚ × ℚ)) :
    (place_turbo_pipe w sp ep positions).coins = w.coins ∧
      (place_turbo_pipe w sp ep positions).balls = w.balls ∧
      (place_turbo_pipe w sp ep positions).round_result = w.round_result := by
  rw [place_turbo_pipe]
  match hp : w.placing_turbo_pipe with
  | none => exact ⟨rfl, rfl, rfl⟩
  | some turbo =>
    dsimp only
    split_ifs <;> exact ⟨rfl, rfl, rfl⟩

lemma place_bouncer_frame (w : World) (x y progress : ℚ) (drops : List TrackPowerup) :
    (place_bouncer w x y progress drops).coins = w.coins ∧
      (place_bouncer w x y progress drops).balls = w.balls ∧
      (place_bouncer w x y progress drops).round_result = w.round_result := by
  rw [place_bouncer]
  match hp : w.placing_bouncer with
  | none => exact ⟨rfl, rfl, rfl⟩
  | some bouncer =>
    dsimp only
    split_ifs with h1
    · exact ⟨rfl, rfl, rfl⟩
    · exact update_bouncer_supply_frame _ drops

lemma place_storm_frame (w : World) (now : ℤ) (x y progress : ℚ) :
    (place_storm w now x y progress).coins = w.coins ∧
      (place_storm w now x y progress).balls = w.balls ∧
      (place_storm w now x y progress).round_result = w.round_result := by
  rw [place_storm]
  match hp : w.placing_storm with
  | none => exact ⟨rfl, rfl, rfl⟩
  | some storm =>
    dsimp only
    split_ifs <;> exact ⟨rfl, rfl, rfl⟩

lemma place_portal_frame (w : World) (now : ℤ) (x y progress : ℚ) :
    (place_portal w now x y progress).coins = w.coins ∧
      (place_portal w now x y progress).balls = w.balls ∧
      (place_portal w now x y progress).round_result = w.round_result := by
  rw [place_portal]
  match hp : w.placing_portal with
  | none => exact ⟨rfl, rfl, rfl⟩
  | some portal =>
    dsimp only
    split_ifs with h1 h2 h3 h4
    · obtain ⟨hc, hb, hr⟩ := try_accelerate_portal_cooldown_frame w now (x, y)
      exact ⟨hc, hb, hr⟩
    · exact try_accelerate_portal_cooldown_frame w now (x, y)
    · exact ⟨rfl, rfl, rfl⟩
    · exact ⟨rfl, rfl, rfl⟩
    · exact ⟨rfl, rfl, rfl⟩

lemma spawn_ball_inv (w : World) :
    (spawn_ball w).coins = w.coins ∧ (spawn_ball w).round_result = w.round_result ∧
      (BallsOK w.balls → BallsOK (spawn_ball w).balls) := by
  refine ⟨rfl, rfl, fun h => ?_⟩
  rw [spawn_ball]
  intro b hb
  rcases List.mem_append.mp hb with h1 | h1
  · exact h b h1
  · rcases List.mem_singleton.mp h1 with rfl
    dsimp only
    constructor
    · split_ifs
      · norm_num [SPECIAL_EGG_VALUE]
      · norm_num
    · norm_num

lemma run_spawn_loop_inv (n : ℕ) :
    ∀ w : World, (run_spawn_loop n w).coins = w.coins ∧
      (run_spawn_loop n w).round_result = w.round_result ∧
      (BallsOK w.balls → BallsOK (run_spawn_loop n w).balls) := by
  induction n with
  | zero => exact fun w => ⟨rfl, rfl, fun h => h⟩
  | succ n ih =>
    intro w
    rw [run_spawn_loop]
    obtain ⟨hc, hr, hb⟩ := ih (spawn_ball { w with spawn_timer := w.spawn_timer - SPAWN_INTERVAL })
    obtain ⟨hc2, hr2, hb2⟩ := spawn_ball_inv { w with spawn_timer := w.spawn_timer - SPAWN_INTERVAL }
    exact ⟨hc.trans hc2, hr.trans hr2, fun h => hb (hb2 h)⟩

lemma run_rapid_fire_inv (n : ℕ) :
    ∀ w : World, (run_rapid_fire n w).coins = w.coins ∧
      (run_rapid_fire n w).round_result = w.round_result ∧
      (BallsOK w.balls → BallsOK (run_rapid_fire n w).balls) := by
  induction n with
  | zero => exact fun w => ⟨rfl, rfl, fun h => h⟩
  | succ n ih =>
    intro w
    rw [run_rapid_fire]
    obtain ⟨hc, hr, hb⟩ := ih (spawn_ball { w with rapid_fire_timer := w.rapid_fire_timer - RAPID_FIRE_INTERVAL })
    obtain ⟨hc2, hr2, hb2⟩ := spawn_ball_inv { w with rapid_fire_timer := w.rapid_fire_timer - RAPID_FIRE_INTERVAL }
    exact ⟨hc.trans hc2, hr.trans hr2, fun h => hb (hb2 h)⟩

lemma apply_skill_income_inv (w : World) (dt : ℚ) :
    (w.coins ≤ (apply_skill_income w dt).coins) ∧
      (apply_skill_income w dt).balls = w.balls ∧
      (apply_skill_income w dt).round_result = w.round_result := by
  rw [apply_skill_income]
  split_ifs with h1
  · exact ⟨le_refl _, rfl, rfl⟩
  · refine ⟨?_, rfl, rfl⟩
    dsimp only
    have : (0:ℤ) ≤ COIN_RAIN_RATE * (loop_count (w.skill_coin_timer + dt) 1 : ℕ) := by
      have : (0:ℤ) ≤ COIN_RAIN_RATE := by norm_num [COIN_RAIN_RATE]
      positivity
    linarith

lemma apply_rapid_fire_inv (w : World) (dt : ℚ) :
    (apply_rapid_fire w dt).coins = w.coins ∧
      (apply_rapid_fire w dt).round_result = w.round_result ∧
      (BallsOK w.balls → BallsOK (apply_rapid_fire w dt).balls) := by
  rw [apply_rapid_fire]
  split_ifs with h1 h2
  · exact ⟨rfl, rfl, fun h => h⟩
  · exact ⟨rfl, rfl, fun h => h⟩
  · exact run_rapid_fire_inv _ _

lemma pipe_entry_scan_coin (w : World) (b : Ball) :
    ∀ l : List PipeItem, (pipe_entry_scan w b l).2.coin_value = b.coin_value ∧
      (pipe_entry_scan w b l).2.bonus_score = b.bonus_score := by
  intro l
  induction l with
  | nil => exact ⟨rfl, rfl⟩
  | cons pipe rest ih =>
    rw [pipe_entry_scan]
    by_cases h1 : pipe.id ∈ b.used_pipes
    · simpa [h1] using ih
    · match hr : pipe.rect with
      | none => simpa [h1, hr] using ih
      | some rect =>
        simp only [h1, if_false, hr]
        split_ifs <;> first | exact ⟨rfl, rfl⟩ | exact ih

lemma apply_pipe_coin (w : World) (now : ℤ) (dt : ℚ) (b : Ball) :
    (apply_pipe w now dt b).2.coin_value = b.coin_value ∧
      (apply_pipe w now dt b).2.bonus_score = b.bonus_score := by
  rw [apply_pipe]
  split_ifs with h1 h2
  · exact ⟨rfl, rfl⟩
  · match hfind : get_pipe_by_id w b.pipe_id with
    | none => exact ⟨rfl, rfl⟩
    | some pipe =>
      dsimp only
      match hr : pipe.rect with
      | none => exact ⟨rfl, rfl⟩
      | some rect =>
        dsimp only
        split_ifs <;> exact ⟨rfl, rfl⟩
  · exact pipe_entry_scan_coin w b _

lemma apply_portal_effects_coin (w : World) (b : Ball) :
    (apply_portal_effects w b).coin_value = b.coin_value ∧
      (apply_portal_effects w b).bonus_score = b.bonus_score := by
  rw [apply_portal_effects]
  match hp : w.portals with
  | [] => exact ⟨rfl, rfl⟩
  | [p0] => exact ⟨rfl, rfl⟩
  | p0 :: p1 :: rest =>
    dsimp only
    split_ifs <;> exact ⟨rfl, rfl⟩

lemma apply_turbo_effects_coin (w : World) (dt mult : ℚ) (b : Ball) :
    (apply_turbo_effects w dt mult b).coin_value = b.coin_value ∧
      (apply_turbo_effects w dt mult b).bonus_score = b.bonus_score := by
  obtain ⟨_, _, _, hc, hb2, _⟩ := turbo_fold_invariant w w.turbo_pipes 1 b (le_refl 1)
  rw [apply_turbo_effects]
  split_ifs <;> exact ⟨hc, hb2⟩

lemma tick_ball_ball_coin (w : World) (now : ℤ) (dt : ℚ) (b : Ball) :
    (tick_ball w now dt b).ball.coin_value = b.coin_value ∧
      b.bonus_score ≤ (tick_ball w now dt b).ball.bonus_score := by
  rw [tick_ball]
  dsimp only
  split_ifs with h1 h2
  · obtain ⟨hc, hb2⟩ := apply_pipe_coin w now dt { b with last_distance := b.distance }
    exact ⟨hc, le_of_eq hb2.symm⟩
  · obtain ⟨hc1, hb1⟩ := apply_pipe_coin w now dt { b with last_distance := b.distance }
    obtain ⟨hc2, hb2⟩ := apply_pipe_coin w now dt _
    exact ⟨hc2.trans hc1, le_of_eq (hb2.trans hb1).symm⟩
  · obtain ⟨hc1, hb1⟩ := apply_pipe_coin w now dt { b with last_distance := b.distance }
    obtain ⟨hct, hbt⟩ := apply_turbo_effects_coin w dt (speed_boost_multiplier w now) _
    obtain ⟨_, _, _, hcb, hbb⟩ := apply_block_effects_fields w _
    obtain ⟨hcp, hbp⟩ := apply_portal_effects_coin w _
    obtain ⟨hc2, hb2⟩ := apply_pipe_coin _ now dt _
    refine ⟨?_, ?_⟩
    · rw [hc2, hcp, hcb, hct, hc1]
    · calc b.bonus_score = ({ b with last_distance := b.distance } : Ball).bonus_score := rfl
        _ = _ := hb1.symm
        _ = _ := hbt.symm
        _ ≤ _ := hbb
        _ = _ := hbp.symm
        _ = _ := hb2.symm

lemma update_balls_inv (w : World) (now : ℤ) (dt : ℚ)
    (hc : 0 ≤ w.coins) (hb : BallsOK w.balls) :
    0 ≤ (update_balls w now dt).coins ∧ BallsOK (update_balls w now dt).balls ∧
      (w.round_result = some RoundResult.success →
        (update_balls w now dt).round_result = some RoundResult.success) := by
  have hscan := foldl_inv
    (fun acc : World × List Ball × List Ball =>
      acc.1.coins = w.coins ∧ acc.1.round_result = w.round_result ∧
        BallsOK acc.2.1 ∧ BallsOK acc.2.2)
    (scan_step now dt) w.balls
    (fun acc a ha hacc => by
      obtain ⟨hac, har, hap, hacomp⟩ := hacc
      obtain ⟨hw1, _, hw3, _⟩ := tick_ball_world_frame acc.1 now dt a
      obtain ⟨hbc, hbb⟩ := tick_ball_ball_coin acc.1 now dt a
      have hgood : 0 ≤ (tick_ball acc.1 now dt a).ball.coin_value ∧
          0 ≤ (tick_ball acc.1 now dt a).ball.bonus_score := by
        obtain ⟨h1, h2⟩ := hb a ha
        exact ⟨hbc ▸ h1, le_trans h2 hbb⟩
      rw [scan_step]
      refine ⟨hw1.trans hac, hw3.trans har, ?_, ?_⟩
      · intro x hx
        rcases List.mem_append.mp hx with hx | hx
        · exact hap x hx
        · rcases List.mem_singleton.mp hx with rfl
          exact hgood
      · dsimp only
        split_ifs with hcompl
        · intro x hx
          rcases List.mem_append.mp hx with hx | hx
          · exact hacomp x hx
          · rcases List.mem_singleton.mp hx with rfl
            exact hgood
        · exact hacomp)
    (w, [], []) ⟨rfl, rfl, fun x hx => absurd hx (List.not_mem_nil x),
      fun x hx => absurd hx (List.not_mem_nil x)⟩
  obtain ⟨hsc, hsr, hsp, hscomp⟩ := hscan
  rw [update_balls]
  dsimp only
  split_ifs with hempty hactive
  · exact ⟨le_of_le_of_eq hc hsc.symm, hsp, fun h => hsr.trans h⟩
  · have hscore := foldl_inv
      (fun x : World =>
        0 ≤ x.coins ∧ BallsOK x.balls ∧
          (w.round_result = some RoundResult.success →
            x.round_result = some RoundResult.success))
      score_step
      (List.foldl (scan_step now dt) (w, [], []) w.balls).2.2
      (fun x fin hfin hx => by
        obtain ⟨hx1, hx2, hx3⟩ := hx
        rw [score_step]
        obtain ⟨hcv1, hcv2, hcv3⟩ := check_round_victory_frame
          { x with
            score := x.score + (fin.score_value + fin.bonus_score)
            coins := x.coins + (fin.coin_value + fin.bonus_score) }
        obtain ⟨hfc, hfb⟩ := hscomp fin hfin
        refine ⟨?_, ?_, fun h => hcv3 (hx3 h)⟩
        · rw [hcv1]
          dsimp only
          linarith
        · intro y hy
          rw [hcv2] at hy
          exact hx2 y hy)
      { (List.foldl (scan_step now dt) (w, [], []) w.balls).1 with
          balls := (List.foldl (scan_step now dt) (w, [], []) w.balls).2.1 }
      ⟨le_of_le_of_eq hc hsc.symm, hsp, fun h => hsr.trans h⟩
    obtain ⟨hf1, hf2, hf3⟩ := hscore
    refine ⟨hf1, ?_, hf3⟩
    intro x hx
    exact hf2 x (List.mem_of_mem_filter hx)
  · refine ⟨le_of_le_of_eq hc hsc.symm, ?_, fun h => hsr.trans h⟩
    intro x hx
    exact hsp x (List.mem_of_mem_filter hx)

lemma storm_payout_inv (w : World) (r : ℤ) :
    (check_round_victory { w with score := w.score + r, coins := w.coins + r }).balls =
        w.balls ∧
      (0 ≤ w.coins → STORM_MIN_EGGS ≤ r →
        0 ≤ (check_round_victory { w with score := w.score + r, coins := w.coins + r }).coins) ∧
      (w.round_result = some RoundResult.success →
        (check_round_victory
            { w with score := w.score + r, coins := w.coins + r }).round_result =
          some RoundResult.success) := by
  obtain ⟨hc, hb, hs⟩ :=
    check_round_victory_frame { w with score := w.score + r, coins := w.coins + r }
  refine ⟨hb, fun h hr => ?_, hs⟩
  rw [hc]
  dsimp only
  have hmin : (0:ℤ) < STORM_MIN_EGGS := by norm_num [STORM_MIN_EGGS]
  linarith

lemma trigger_storm_inv (w : World) (now : ℤ) (seed : ℕ) (storm : StormItem) :
    (trigger_storm w now seed storm).1.balls = w.balls ∧
      (0 ≤ w.coins → 0 ≤ (trigger_storm w now seed storm).1.coins) ∧
      (w.round_result = some RoundResult.success →
        (trigger_storm w now seed storm).1.round_result = some RoundResult.success) := by
  rw [trigger_storm]
  split_ifs with h1 h2
  · exact ⟨rfl, fun h => h, fun h => h⟩
  · dsimp only
    exact ⟨(storm_payout_inv w _).1,
      fun h => (storm_payout_inv w _).2.1 h (randintSeed_ge _ _ _),
      (storm_payout_inv w _).2.2⟩
  · exact ⟨rfl, fun h => h, fun h => h⟩

lemma update_storm_emitters_inv (w : World) (now : ℤ) (seed : ℕ) :
    (update_storm_emitters w now seed).balls = w.balls ∧
      (0 ≤ w.coins → 0 ≤ (update_storm_emitters w now seed).coins) ∧
      (w.round_result = some RoundResult.success →
        (update_storm_emitters w now seed).round_result = some RoundResult.success) := by
  rw [update_storm_emitters]
  split_ifs with h1
  · exact ⟨rfl, fun h => h, fun h => h⟩
  · have hfold := foldl_inv
      (fun acc : World × List StormItem =>
        acc.1.balls = w.balls ∧ (0 ≤ w.coins → 0 ≤ acc.1.coins) ∧
          (w.round_result = some RoundResult.success →
            acc.1.round_result = some RoundResult.success))
      (storm_scan_step now seed) w.storm_emitters
      (fun acc storm hmem hacc => by
        obtain ⟨hab, hac, har⟩ := hacc
        rw [storm_scan_step]
        dsimp only
        split_ifs with ht
        · obtain ⟨hb2, hc2, hr2⟩ := trigger_storm_inv acc.1 now seed storm
          refine ⟨hb2.trans hab, fun h => ?_, fun h => hr2 (har h)⟩
          · by_cases hc0 : 0 ≤ acc.1.coins
            · exact hc2 hc0
            · exact hc2 (hac h)
        · exact ⟨hab, hac, har⟩)
      (w, []) ⟨rfl, fun h => h, fun h => h⟩
    exact hfold

lemma update_inv (w : World) (now : ℤ) (dt : ℚ) (seed : ℕ)
    (drops : List TrackPowerup) (hc : 0 ≤ w.coins) (hb : BallsOK w.balls) :
    0 ≤ (update w now dt seed drops).coins ∧
      BallsOK (update w now dt seed drops).balls ∧
      (w.round_result = some RoundResult.success →
        (update w now dt seed drops).round_result = some RoundResult.success) := by
  have hA : ∀ x : World, x.coins = w.coins ∧ x.round_result = w.round_result ∧
      (BallsOK x.balls) →
        0 ≤ (update_portals (apply_rapid_fire (apply_skill_income
            (update_storm_emitters (update_bouncer_supply
              (update_blocks (update_balls x now dt) now) drops) now seed) dt) dt)
            now).coins ∧
          BallsOK (update_portals (apply_rapid_fire (apply_skill_income
            (update_storm_emitters (update_bouncer_supply
              (update_blocks (update_balls x now dt) now) drops) now seed) dt) dt)
            now).balls ∧
          (w.round_result = some RoundResult.success →
            (update_portals (apply_rapid_fire (apply_skill_income
              (update_storm_emitters (update_bouncer_supply
                (update_blocks (update_balls x now dt) now) drops) now seed) dt) dt)
              now).round_result = some RoundResult.success) := by
      intro x hx
      obtain ⟨hx1, hx2, hx3⟩ := hx
      obtain ⟨hu1, hu2, hu3⟩ := update_balls_inv x now dt (hx1 ▸ hc) hx3
      obtain ⟨hk1, hk2, hk3⟩ := update_blocks_frame (update_balls x now dt) now
      obtain ⟨hv1, hv2, hv3⟩ := update_bouncer_supply_frame
        (update_blocks (update_balls x now dt) now) drops
      obtain ⟨hs1, hs2, hs3⟩ := update_storm_emitters_inv
        (update_bouncer_supply (update_blocks (update_balls x now dt) now) drops)
        now seed
      obtain ⟨hi1, hi2, hi3⟩ := apply_skill_income_inv
        (update_storm_emitters (update_bouncer_supply
          (update_blocks (update_balls x now dt) now) drops) now seed) dt
      obtain ⟨hr1, hr2, hr3⟩ := apply_rapid_fire_inv
        (apply_skill_income (update_storm_emitters (update_bouncer_supply
          (update_blocks (update_balls x now dt) now) drops) now seed) dt) dt
      obtain ⟨hp1, hp2, hp3⟩ := update_portals_frame
        (apply_rapid_fire (apply_skill_income (update_storm_emitters
          (update_bouncer_supply (update_blocks (update_balls x now dt) now) drops)
          now seed) dt) dt) now
      have hcoins : 0 ≤ (update_portals (apply_rapid_fire (apply_skill_income
          (update_storm_emitters (update_bouncer_supply
            (update_blocks (update_balls x now dt) now) drops) now seed) dt) dt)
          now).coins := by
        rw [hp1, hr1]
        have := hs2 (by rw [hv1, hk1]; exact hu1)
        linarith
      refine ⟨hcoins, ?_, fun h => ?_⟩
      · rw [hp2]
        refine hr3 ?_
        rw [hi2, hs1, hv2, hk2]
        exact hu2
      · rw [hp3, hr2, hi3]
        exact hs3 (by rw [hv3, hk3]; exact hu3 (hx2.trans h))
  rw [update]
  split_ifs with h0 h1
  · exact ⟨hc, hb, fun h => h⟩
  · dsimp only
    refine hA _ ?_
    obtain ⟨hq1, hq2, hq3⟩ := run_spawn_loop_inv
      (loop_count (w.spawn_timer + dt) SPAWN_INTERVAL)
      { w with spawn_timer := w.spawn_timer + dt }
    exact ⟨hq1, hq2, hq3 hb⟩
  · dsimp only
    exact hA w ⟨rfl, rfl, hb⟩

lemma reset_round_fresh (w : World) (level : Option ℕ) (carry : Bool) (now : ℤ) :
    (reset_round w level carry now).coins = 0 ∧ (reset_round w level carry now).balls = [] := by
  rw [reset_round.eq_def]
  cases level <;> (dsimp only; split_ifs <;> exact ⟨rfl, rfl⟩)

lemma update_balls_success (w : World) (now : ℤ) (dt : ℚ)
    (hs : w.round_result = some RoundResult.success) :
    (update_balls w now dt).round_result = some RoundResult.success := by
  have hscan := foldl_inv
    (fun acc : World × List Ball × List Ball => acc.1.round_result = w.round_result)
    (scan_step now dt) w.balls
    (fun acc a ha hacc => by
      obtain ⟨_, _, hw3, _⟩ := tick_ball_world_frame acc.1 now dt a
      rw [scan_step]
      exact hw3.trans hacc)
    (w, [], []) rfl
  rw [update_balls]
  dsimp only
  split_ifs with hempty hactive
  · exact hscan.trans hs
  · have hscore := foldl_inv
      (fun x : World => x.round_result = some RoundResult.success)
      score_step
      (List.foldl (scan_step now dt) (w, [], []) w.balls).2.2
      (fun x fin hfin hx => by
        rw [score_step]
        exact (check_round_victory_frame _).2.2 hx)
      { (List.foldl (scan_step now dt) (w, [], []) w.balls).1 with
          balls := (List.foldl (scan_step now dt) (w, [], []) w.balls).2.1 }
      (hscan.trans hs)
    exact hscore
  · exact hscan.trans hs

lemma update_result_success (w : World) (now : ℤ) (dt : ℚ) (seed : ℕ)
    (drops : List TrackPowerup) (hs : w.round_result = some RoundResult.success) :
    (update w now dt seed drops).round_result = some RoundResult.success := by
  have hA : ∀ x : World, x.round_result = w.round_result →
        (update_portals (apply_rapid_fire (apply_skill_income
          (update_storm_emitters (update_bouncer_supply
            (update_blocks (update_balls x now dt) now) drops) now seed) dt) dt)
          now).round_result = some RoundResult.success := by
      intro x hx
      have hu := update_balls_success x now dt (hx.trans hs)
      have hk := (update_blocks_frame (update_balls x now dt) now).2.2
      have hv := (update_bouncer_supply_frame
        (update_blocks (update_balls x now dt) now) drops).2.2
      have hsm := (update_storm_emitters_inv
        (update_bouncer_supply (update_blocks (update_balls x now dt) now) drops)
        now seed).2.2 ((hv.trans hk).trans hu)
      have hi := (apply_skill_income_inv
        (update_storm_emitters (update_bouncer_supply
          (update_blocks (update_balls x now dt) now) drops) now seed) dt).2.2
      have hr := (apply_rapid_fire_inv
        (apply_skill_income (update_storm_emitters (update_bouncer_supply
          (update_blocks (update_balls x now dt) now) drops) now seed) dt) dt).2.1
      have hp := (update_portals_frame
        (apply_rapid_fire (apply_skill_income (update_storm_emitters
          (update_bouncer_supply (update_blocks (update_balls x now dt) now) drops)
          now seed) dt) dt) now).2.2
      rw [hp, hr, hi]
      exact hsm
  rw [update]
  split_ifs with h0 h1
  · exact hs
  · dsimp only
    exact hA _ (run_spawn_loop_inv (loop_count (w.spawn_timer + dt) SPAWN_INTERVAL)
      { w with spawn_timer := w.spawn_timer + dt }).2.1
  · dsimp only
    exact hA w rfl

lemma apply_op_coin_inv (w : World) (op : GameOp)
    (hc : 0 ≤ w.coins) (hb : BallsOK w.balls) :
    0 ≤ (apply_op w op).coins ∧ BallsOK (apply_op w op).balls := by
  match op with
  | GameOp.tick now dt seed drops =>
    obtain ⟨h1, h2, _⟩ := update_inv w now dt seed drops hc hb
    exact ⟨h1, h2⟩
  | GameOp.purchasePipe =>
    obtain ⟨h1, _, h3⟩ := try_purchase_pipe_frame w
    exact ⟨h3 hc, h1 ▸ hb⟩
  | GameOp.purchaseBlock =>
    obtain ⟨h1, _, h3⟩ := try_purchase_block_frame w
    exact ⟨h3 hc, h1 ▸ hb⟩
  | GameOp.purchaseTurbo =>
    obtain ⟨h1, _, h3⟩ := try_purchase_turbo_pipe_frame w
    exact ⟨h3 hc, h1 ▸ hb⟩
  | GameOp.purchasePortal =>
    obtain ⟨h1, _, h3⟩ := try_purchase_portal_frame w
    exact ⟨h3 hc, h1 ▸ hb⟩
  | GameOp.purchaseStorm =>
    obtain ⟨h1, h2, _⟩ := try_purchase_storm_frame w
    exact ⟨h1 ▸ hc, h2 ▸ hb⟩
  | GameOp.activateBouncepad =>
    obtain ⟨h1, h2, _⟩ := try_activate_bouncepad_frame w
    exact ⟨h1 ▸ hc, h2 ▸ hb⟩
  | GameOp.activateSpeedBoost now =>
    obtain ⟨h1, h2, _⟩ := try_activate_speed_boost_frame w now
    exact ⟨h1 ▸ hc, h2 ▸ hb⟩
  | GameOp.rightClick pos drops =>
    obtain ⟨h1, _, h3⟩ := handle_right_click_frame w pos drops
    exact ⟨h3 hc, h1 ▸ hb⟩
  | GameOp.placePipeOp rect ey xy ep xp x =>
    obtain ⟨h1, h2, _⟩ := place_pipe_frame w rect ey xy ep xp x
    exact ⟨h1 ▸ hc, h2 ▸ hb⟩
  | GameOp.placeBlockOp now x y progress =>
    obtain ⟨h1, h2, _⟩ := place_block_frame w now x y progress
    exact ⟨h1 ▸ hc, h2 ▸ hb⟩
  | GameOp.placeTurboOp sp ep positions =>
    obtain ⟨h1, h2, _⟩ := place_turbo_pipe_frame w sp ep positions
    exact ⟨h1 ▸ hc, h2 ▸ hb⟩
  | GameOp.placeBouncerOp x y progress drops =>
    obtain ⟨h1, h2, _⟩ := place_bouncer_frame w x y progress drops
    exact ⟨h1 ▸ hc, h2 ▸ hb⟩
  | GameOp.placeStormOp now x y progress =>
    obtain ⟨h1, h2, _⟩ := place_storm_frame w now x y progress
    exact ⟨h1 ▸ hc, h2 ▸ hb⟩
  | GameOp.placePortalOp now x y progress =>
    obtain ⟨h1, h2, _⟩ := place_portal_frame w now x y progress
    exact ⟨h1 ▸ hc, h2 ▸ hb⟩
  | GameOp.queryRemainingTime now =>
    obtain ⟨h1, h2, _⟩ := remaining_time_frame w now
    exact ⟨h1 ▸ hc, h2 ▸ hb⟩
  | GameOp.resetRound level carry now =>
    obtain ⟨h1, h2⟩ := reset_round_fresh w level carry now
    exact ⟨le_of_eq h1.symm, fun b hbm => absurd (h2 ▸ hbm) (List.not_mem_nil b)⟩

lemma apply_op_success (w : World) (op : GameOp) (hop : op.isReset = false)
    (hs : w.round_result = some RoundResult.success) :
    (apply_op w op).round_result = some RoundResult.success := by
  match op with
  | GameOp.tick now dt seed drops => exact (update_result_success w now dt seed drops) hs
  | GameOp.purchasePipe => exact (try_purchase_pipe_frame w).2.1.trans hs
  | GameOp.purchaseBlock => exact (try_purchase_block_frame w).2.1.trans hs
  | GameOp.purchaseTurbo => exact (try_purchase_turbo_pipe_frame w).2.1.trans hs
  | GameOp.purchasePortal => exact (try_purchase_portal_frame w).2.1.trans hs
  | GameOp.purchaseStorm => exact (try_purchase_storm_frame w).2.2.trans hs
  | GameOp.activateBouncepad => exact (try_activate_bouncepad_frame w).2.2.trans hs
  | GameOp.activateSpeedBoost now =>
    exact ((try_activate_speed_boost_frame w now).2.2).trans hs
  | GameOp.rightClick pos drops =>
    exact ((handle_right_click_frame w pos drops).2.1).trans hs
  | GameOp.placePipeOp rect ey xy ep xp x =>
    exact ((place_pipe_frame w rect ey xy ep xp x).2.2).trans hs
  | GameOp.placeBlockOp now x y progress =>
    exact ((place_block_frame w now x y progress).2.2).trans hs
  | GameOp.placeTurboOp sp ep positions =>
    exact ((place_turbo_pipe_frame w sp ep positions).2.2).trans hs
  | GameOp.placeBouncerOp x y progress drops =>
    exact ((place_bouncer_frame w x y progress drops).2.2).trans hs
  | GameOp.placeStormOp now x y progress =>
    exact ((place_storm_frame w now x y progress).2.2).trans hs
  | GameOp.placePortalOp now x y progress =>
    exact ((place_portal_frame w now x y progress).2.2).trans hs
  | GameOp.queryRemainingTime now => exact (remaining_time_frame w now).2.2 hs

lemma apply_ops_coin_inv (ops : List GameOp) :
    ∀ w : World, 0 ≤ w.coins → BallsOK w.balls →
      0 ≤ (apply_ops w ops).coins ∧ BallsOK (apply_ops w ops).balls := by
  induction ops with
  | nil => exact fun w hc hb => ⟨hc, hb⟩
  | cons op rest ih =>
    intro w hc hb
    rw [apply_ops]
    obtain ⟨h1, h2⟩ := apply_op_coin_inv w op hc hb
    exact ih (apply_op w op) h1 h2

lemma apply_ops_success (ops : List GameOp) :
    ∀ w : World, w.round_result = some RoundResult.success →
      (∀ op ∈ ops, op.isReset = false) →
      (apply_ops w ops).round_result = some RoundResult.success := by
  induction ops with
  | nil => exact fun w hs _ => hs
  | cons op rest ih =>
    intro w hs hops
    rw [apply_ops]
    exact ih (apply_op w op)
      (apply_op_success w op (hops op (List.mem_cons_self op rest)) hs)
      (fun o ho => hops o (List.mem_cons_of_mem op ho))

/-- C3: Victory priority. Once `round_result` is `success`, no
subsequent non-reset operation ever changes it — in particular a later
`remaining_time` query whose countdown has reached zero does not
overwrite it with `fail`, and later `check_round_victory` calls (run by
ball completion, storm payouts, purchases and removals) leave it as
`success`: once won, the round stays won. -/
theorem victory_priority (w : World) (ops : List GameOp)
    (hs : w.round_result = some RoundResult.success)
    (hops : ∀ op ∈ ops, op.isReset = false) :
    (apply_ops w ops).round_result = some RoundResult.success :=
apply_ops_success ops w hs hops

/-- Witness for C3: a won round with its clock started at 0 stays won
across an expired-timer `remaining_time` query and a purchase. -/
theorem victory_priority_witness :
    (apply_ops
        { round_result := some RoundResult.success, round_start_ms := some 0 }
        [GameOp.queryRemainingTime 1000000, GameOp.purchaseBlock]).round_result =
      some RoundResult.success := by
  refine victory_priority _ _ rfl ?_
  intro op hop
  rcases List.mem_cons.mp hop with rfl | hop
  · rfl
  · rcases List.mem_cons.mp hop with rfl | hop
    · rfl
    · exact absurd hop (List.not_mem_nil _)

/-- C10: Coins are never negative. Starting from a fresh round (the
reset zeroes the wallet and empties the ball collection), every sequence
of operations — frame ticks, purchases (which deduct only after the
affordability check), placements, removals, consumable activations,
timer queries and further resets — keeps `coins ≥ 0`; all other coin
changes (completion payouts, storm rewards, coin rain) are non-negative
additions. -/
theorem coins_never_negative (w0 : World) (level : Option ℕ) (carry : Bool)
    (now : ℤ) (ops : List GameOp) :
    0 ≤ (apply_ops (reset_round w0 level carry now) ops).coins := by
  obtain ⟨h1, h2⟩ := reset_round_fresh w0 level carry now
  exact (apply_ops_coin_inv ops (reset_round w0 level carry now)
    (le_of_eq h1.symm)
    (fun b hbm => absurd (h2 ▸ hbm) (List.not_mem_nil b))).1

end EggFarm
